import Mathlib

/-!
# Verification of the Sudoku solver (`Sudoku.py`)

This file gives a shallow embedding of the solver in `Sudoku.py` and proves
(or refutes) the frozen claims about it.  Python lists become Lean `List Nat`,
the mutable object graph becomes an explicit `SudokuState` record that is
threaded through every operation, and operations that can raise become
`Option`-valued functions.  Every definition is translated from the source
file; line references point into `src/Sudoku.py`.

Conventions:
* digits are plain `Nat`s, `0` denotes a missing value;
* cells are addressed by their index `i ∈ [0, 80]` in reading order, so the
  cell at (1-based) row `r`, column `c` has index `(r-1)*9 + (c-1)`;
* rows, columns and blocks are 0-indexed lists of `Subsection`s.
-/

set_option maxRecDepth 1000000
set_option maxHeartbeats 4000000

/-- The digits 1–9, the initial content of `__unknown_values`
(`Sudoku.py` line 382). -/
def allDigits : List Nat := [1, 2, 3, 4, 5, 6, 7, 8, 9]

/-- `Sudoku.Subsection` (lines 344–411): a row, column or block.
`cells` holds the indices of the member cells in registration order
(`__cells`), `knownValues` and `unknownValues` are the two value lists
(`__known_values`, `__unknown_values`).  The `id` attribute is implicit in
the position of the subsection inside its family list. -/
structure Subsection where
  cells : List Nat
  knownValues : List Nat
  unknownValues : List Nat
deriving DecidableEq, Repr

instance : Inhabited Subsection := ⟨⟨[], [], []⟩⟩

/-- Python's `list.remove(v)`: drop the first occurrence of `v`, raising
`ValueError` (here: `none`) if `v` is absent.  Used where the source calls
`remove` without first checking membership (`add_cell`, line 392). -/
def eraseE (l : List Nat) (v : Nat) : Option (List Nat) :=
  if v ∈ l then some (l.erase v) else none

/-- `Subsection.add_cell` (lines 387–392): append the cell, and if its value
is nonzero move the value from `unknownValues` to `knownValues`.  The
`remove` call raises when the value is not an unknown value of the unit
(in particular on a duplicate), which aborts construction: modelled by
`none`. -/
def addCell (u : Subsection) (i v : Nat) : Option Subsection :=
  if v ≠ 0 then
    match eraseE u.unknownValues v with
    | some un => some ⟨u.cells ++ [i], u.knownValues ++ [v], un⟩
    | none => none
  else
    some ⟨u.cells ++ [i], u.knownValues, u.unknownValues⟩

/-- `Subsection.add_known_value` (lines 405–408): append `v` to
`knownValues` unconditionally, and remove it from `unknownValues` only when
present there.  Note there is no failure path: a double commit silently
appends a duplicate. -/
def addKnownValue (u : Subsection) (v : Nat) : Subsection :=
  ⟨u.cells, u.knownValues ++ [v],
    if v ∈ u.unknownValues then u.unknownValues.erase v else u.unknownValues⟩

/-- `Subsection.remove_known_value` (lines 400–403): append `v` to
`unknownValues` unconditionally, and remove it from `knownValues` only when
present there. -/
def removeKnownValue (u : Subsection) (v : Nat) : Subsection :=
  ⟨u.cells,
    if v ∈ u.knownValues then u.knownValues.erase v else u.knownValues,
    u.unknownValues ++ [v]⟩

/-- `Sudoku.Cell` (lines 452–520).  `row`, `col`, `block` are the indices of
the containing units inside the grid's family lists (the Python object holds
direct references; they never change after construction).  `possibleValues`
is the real `__possible_values` attribute (set to `None` by `__init__` and by
`set_value`, read by `get_possible_values`).  `possibleValuesTypo` models the
distinct attribute `self.possible_values` that `set_possible_values`
(line 504) actually writes to — because of Python name mangling it is *not*
the attribute `get_possible_values` reads, and nothing in the program ever
reads it. -/
structure Cell where
  row : Nat
  col : Nat
  block : Nat
  value : Nat
  possibleValues : Option (List Nat)
  possibleValuesTypo : Option (List Nat)
deriving DecidableEq, Repr

instance : Inhabited Cell := ⟨⟨0, 0, 0, 0, none, none⟩⟩

/-- `Cell.get_possible_values` (lines 500–501): reads `__possible_values`. -/
def getPossibleValues (c : Cell) : Option (List Nat) :=
  c.possibleValues

/-- `Cell.set_possible_values` (lines 503–504): writes `self.possible_values`,
a *different* attribute from the name-mangled `self.__possible_values`, so
the stored list is never seen by `get_possible_values`. -/
def setPossibleValuesCell (c : Cell) (l : List Nat) : Cell :=
  { c with possibleValuesTypo := some l }

/-- `Cell.set_value` (lines 518–520): set the value and clear
`__possible_values`. -/
def setValueCell (c : Cell) (v : Nat) : Cell :=
  { c with value := v, possibleValues := none }

/-- The whole mutable object graph of a `Sudoku` instance: `__rows`,
`__columns`, `__blocks` (lines 92–94) and the 81 cells (`__cells`,
line 95). -/
structure SudokuState where
  rows : List Subsection
  columns : List Subsection
  blocks : List Subsection
  cells : List Cell
deriving DecidableEq, Repr

instance : Inhabited SudokuState := ⟨⟨[], [], [], []⟩⟩

/-- The block id chain of `__unpack_vectors` (lines 126–143), on 1-based row
and column ids; returns the 1-based block id.  The final case (rows 7–9,
columns 7–9) is the last `elif` of the source. -/
def cellBlockId (rowId colId : Nat) : Nat :=
  if rowId ∈ [1, 2, 3] ∧ colId ∈ [1, 2, 3] then 1
  else if rowId ∈ [1, 2, 3] ∧ colId ∈ [4, 5, 6] then 2
  else if rowId ∈ [1, 2, 3] ∧ colId ∈ [7, 8, 9] then 3
  else if rowId ∈ [4, 5, 6] ∧ colId ∈ [1, 2, 3] then 4
  else if rowId ∈ [4, 5, 6] ∧ colId ∈ [4, 5, 6] then 5
  else if rowId ∈ [4, 5, 6] ∧ colId ∈ [7, 8, 9] then 6
  else if rowId ∈ [7, 8, 9] ∧ colId ∈ [1, 2, 3] then 7
  else if rowId ∈ [7, 8, 9] ∧ colId ∈ [4, 5, 6] then 8
  else 9

/-- Registration of one cell during construction.  `Cell.__init__`
(lines 484–498) calls `block.add_cell`, then `row.add_cell`, then
`col.add_cell`; any of the three may raise (duplicate value), aborting
construction. -/
def registerCell (s : SudokuState) (i v : Nat) : Option SudokuState :=
  let r := i / 9
  let c := i % 9
  let b := cellBlockId (r + 1) (c + 1) - 1
  match addCell (s.blocks.getD b default) i v with
  | none => none
  | some bu =>
    match addCell (s.rows.getD r default) i v with
    | none => none
    | some ru =>
      match addCell (s.columns.getD c default) i v with
      | none => none
      | some cu =>
        some { rows := s.rows.set r ru
               columns := s.columns.set c cu
               blocks := s.blocks.set b bu
               cells := s.cells ++ [⟨r, c, b, v, none, none⟩] }

/-- Register a list of `(index, value)` pairs in order, stopping at the
first failure.  This is the double loop of `__unpack_vectors`
(lines 119–160), which walks the board in reading order. -/
def registerAll (s : SudokuState) : List (Nat × Nat) → Option SudokuState
  | [] => some s
  | e :: es =>
    match registerCell s e.1 e.2 with
    | none => none
    | some s' => registerAll s' es

/-- The 81 `(index, value)` pairs of a board, in reading order.  Out-of-range
lookups yield `0`, but `buildSudoku` only applies this to 9×9 boards. -/
def boardEntries (board : List (List Nat)) : List (Nat × Nat) :=
  (List.range 81).map fun i => (i, (board.getD (i / 9) []).getD (i % 9) 0)

/-- The empty state the constructor starts from: 9 fresh rows, columns and
blocks (lines 112–120), each with `__unknown_values = [1..9]`
(line 382), and no cells yet. -/
def initState : SudokuState :=
  { rows := List.replicate 9 ⟨[], [], allDigits⟩
    columns := List.replicate 9 ⟨[], [], allDigits⟩
    blocks := List.replicate 9 ⟨[], [], allDigits⟩
    cells := [] }

/-- `Sudoku.__init__` (lines 62–96): assert the 9×9 shape (lines 87–89),
then unpack the board into rows, columns, blocks and cells.  Any assertion
failure or duplicate-value `ValueError` yields `none`. -/
def buildSudoku (board : List (List Nat)) : Option SudokuState :=
  if board.length = 9 ∧ board.all (fun r => r.length = 9) then
    registerAll initState (boardEntries board)
  else
    none

/-- Default-valued cell lookup; `s.cells` always has 81 entries for a
constructed grid, so the default is never hit in real runs. -/
def getCellD (s : SudokuState) (i : Nat) : Cell :=
  s.cells.getD i default

/-- State-level `cell.set_value(v)` for the cell at index `i`. -/
def setCellValue (s : SudokuState) (i v : Nat) : SudokuState :=
  { s with cells := s.cells.set i (setValueCell (getCellD s i) v) }

/-- State-level `cell.set_possible_values(l)` for the cell at index `i`. -/
def setPossibleValuesState (s : SudokuState) (i : Nat) (l : List Nat) : SudokuState :=
  { s with cells := s.cells.set i (setPossibleValuesCell (getCellD s i) l) }

/-- Apply `f` to the subsection at index `j` of a family list. -/
def updAt (l : List Subsection) (j : Nat) (f : Subsection → Subsection) : List Subsection :=
  l.set j (f (l.getD j default))

/-- `row.add_known_value(v)` through the grid, for row index `j`. -/
def addKnownRowAt (s : SudokuState) (j v : Nat) : SudokuState :=
  { s with rows := updAt s.rows j (fun u => addKnownValue u v) }

/-- `col.add_known_value(v)` through the grid, for column index `j`. -/
def addKnownColAt (s : SudokuState) (j v : Nat) : SudokuState :=
  { s with columns := updAt s.columns j (fun u => addKnownValue u v) }

/-- `block.add_known_value(v)` through the grid, for block index `j`. -/
def addKnownBlockAt (s : SudokuState) (j v : Nat) : SudokuState :=
  { s with blocks := updAt s.blocks j (fun u => addKnownValue u v) }

/-- `row.remove_known_value(v)` through the grid. -/
def removeKnownRowAt (s : SudokuState) (j v : Nat) : SudokuState :=
  { s with rows := updAt s.rows j (fun u => removeKnownValue u v) }

/-- `col.remove_known_value(v)` through the grid. -/
def removeKnownColAt (s : SudokuState) (j v : Nat) : SudokuState :=
  { s with columns := updAt s.columns j (fun u => removeKnownValue u v) }

/-- `block.remove_known_value(v)` through the grid. -/
def removeKnownBlockAt (s : SudokuState) (j v : Nat) : SudokuState :=
  { s with blocks := updAt s.blocks j (fun u => removeKnownValue u v) }

/-- `Sudoku.is_completed` (lines 187–192): every row and every column must
have a `known_values` list of length exactly 9.  Blocks are not consulted,
and only the length of the list is checked. -/
def isCompleted (s : SudokuState) : Bool :=
  (s.rows ++ s.columns).all fun u => u.knownValues.length == 9

/-- One unit of `assert_validity`'s inner loop (lines 201–209):
`values = area.get_known_values()` hands out the *internal* list, and
`values.sort()` sorts that internal list in place; the check then compares
against `[1, ..., 9]` and raises on mismatch.  This processes a family list
in order, returning the (partially) mutated list and whether all units
passed; on the first failure the remaining units are left untouched, as the
raised exception skips them. -/
def assertUnitList : List Subsection → List Subsection × Bool
  | [] => ([], true)
  | u :: us =>
    let u' := { u with knownValues := List.insertionSort (· ≤ ·) u.knownValues }
    if u'.knownValues = allDigits then
      let r := assertUnitList us
      (u' :: r.1, r.2)
    else
      (u' :: us, false)

/-- `Sudoku.assert_validity` (lines 194–209): rows, then columns, then
blocks.  Returns the mutated state and `true` when no
`InvalidGameSolution` was raised. -/
def assertValidity (s : SudokuState) : SudokuState × Bool :=
  let r := assertUnitList s.rows
  if r.2 then
    let c := assertUnitList s.columns
    if c.2 then
      let b := assertUnitList s.blocks
      ({ s with rows := r.1, columns := c.1, blocks := b.1 }, b.2)
    else
      ({ s with rows := r.1, columns := c.1 }, false)
  else
    ({ s with rows := r.1 }, false)

/-- `Sudoku.__value_is_safe` (lines 248–259): `v` must be absent from the
known values of the cell's row, column and block. -/
def valueIsSafe (s : SudokuState) (i v : Nat) : Bool :=
  let c := getCellD s i
  if v ∈ (s.rows.getD c.row default).knownValues
      ∨ v ∈ (s.columns.getD c.col default).knownValues
      ∨ v ∈ (s.blocks.getD c.block default).knownValues then
    false
  else
    true

/-- The filtering loop of `__deduce_block_values` (lines 227–229): remove
from `possible` every value in `knowns` (guarded, first occurrence only,
exactly like `if existing_value in possible_values:
possible_values.remove(existing_value)`). -/
def removeKnownsFrom (possible knowns : List Nat) : List Nat :=
  knowns.foldl (fun p v => if v ∈ p then p.erase v else p) possible

/-- The known values of vector number `k` of the `vectors = [row, col]`
list of `__deduce_block_values` (line 224): `k = 0` is the cell's row,
`k = 1` its column, read from the current state. -/
def vectorKnowns (s : SudokuState) (i k : Nat) : List Nat :=
  let c := getCellD s i
  if k = 0 then (s.rows.getD c.row default).knownValues
  else (s.columns.getD c.col default).knownValues

/-- One iteration of the `for vector in vectors` loop of
`__deduce_block_values` (lines 226–246): filter `possible` against the
vector's known values, and then — still inside this per-vector iteration,
which is the crucial indentation detail of the source — check whether
exactly one candidate is left.  If so, the cell's value is set and
committed to the block and to both vectors, and the block pass is re-run
(line 244, the `recur` argument); otherwise the cell's
`set_possible_values` is called with the filtered list. -/
def deduceVectorStepG (recur : SudokuState → SudokuState) (s : SudokuState)
    (b i k : Nat) (possible : List Nat) : SudokuState × List Nat :=
  let p := removeKnownsFrom possible (vectorKnowns s i k)
  if p.length = 1 then
    let v := p.headD 0
    let c := getCellD s i
    let s1 := setCellValue s i v
    let s2 := addKnownBlockAt s1 b v
    let s3 := addKnownRowAt s2 c.row v
    let s4 := addKnownColAt s3 c.col v
    (recur s4, p)
  else
    (setPossibleValuesState s i p, p)

/-- The `for cell in block.get_cells()` loop of `__deduce_block_values`
(lines 216–246).  A cell is processed only when its value is still 0
(line 222); `possible_values` starts as a copy of the block's current
`unknown_values` (line 223: the local alias `unknown_values` is the live
list object, so the copy sees all mutations made so far, hence the fresh
read of the block's unknowns per cell). -/
def deduceCellListG (recur : SudokuState → SudokuState) (b : Nat) :
    List Nat → SudokuState → SudokuState
  | [], s => s
  | i :: rest, s =>
    let s' :=
      if (getCellD s i).value = 0 then
        let p0 := (s.blocks.getD b default).unknownValues
        let sp1 := deduceVectorStepG recur s b i 0 p0
        let sp2 := deduceVectorStepG recur sp1.1 b i 1 sp1.2
        sp2.1
      else s
    deduceCellListG recur b rest s'

/-- `Sudoku.__deduce_block_values` (lines 211–246) for the block at index
`b`.  The Python function recurses into itself after every forced
assignment; that recursion is bounded in reality (each self-call follows an
assignment that strictly shrinks the block's `unknown_values`), and is
modelled with a `fuel` parameter that only decreases at the self-call, so
with sufficient fuel the Lean function computes exactly what the Python
one does. -/
def deduceBlockValues : Nat → SudokuState → Nat → SudokuState
  | 0, s, _ => s
  | fuel + 1, s, b =>
    let blk := s.blocks.getD b default
    if blk.unknownValues.length ≠ 0 then
      deduceCellListG (fun s' => deduceBlockValues fuel s' b) b blk.cells s
    else s

/-- Lines 291–294: tentatively assign `n` to cell `i` and commit it to the
cell's block, row and column (in that order). -/
def tentativeAssign (s : SudokuState) (i n : Nat) : SudokuState :=
  let c := getCellD s i
  let s1 := setCellValue s i n
  let s2 := addKnownBlockAt s1 c.block n
  let s3 := addKnownRowAt s2 c.row n
  addKnownColAt s3 c.col n

/-- Lines 299–302: reset cell `i` to 0 and remove `n` from the known values
of its block, row and column (in that order). -/
def undoAssign (s : SudokuState) (i n : Nat) : SudokuState :=
  let c := getCellD s i
  let s1 := setCellValue s i 0
  let s2 := removeKnownBlockAt s1 c.block n
  let s3 := removeKnownRowAt s2 c.row n
  removeKnownColAt s3 c.col n

/-- The `for num in range(1, 10)` loop of `__solve_recursively`
(lines 287–304): for each safe digit, tentatively assign and recurse
(`recur` is the recursive call on `index + 1`); on failure of the
recursive call, undo the assignment (lines 299–302) and try the next
digit.  When the digits run out the branch reports failure (line 304),
with whatever state the undos left behind. -/
def tryNumsG (recur : SudokuState → Bool × SudokuState) (i : Nat) :
    List Nat → SudokuState → Bool × SudokuState
  | [], s => (false, s)
  | n :: ns, s =>
    if valueIsSafe s i n = true then
      match recur (tentativeAssign s i n) with
      | (true, s2) => (true, s2)
      | (false, s2) => tryNumsG recur i ns (undoAssign s2 i n)
    else
      tryNumsG recur i ns s

/-- `Sudoku.__solve_recursively` (lines 261–304) over the list of remaining
cell indices (the Python version indexes `cells[index]`; walking the list
suffix is the same computation, with the empty suffix playing the role of
the `IndexError` base case, lines 264–265).  The block at lines 267–279 is
unreachable in the source: when `index == len(cells)`, `cells[index]` has
already raised `IndexError`, so it is not modelled.  A cell that already
has a (safe) value is skipped (lines 284–285); otherwise the digits 1–9 are
tried in order. -/
def solveRecursively : List Nat → SudokuState → Bool × SudokuState
  | [], s => (true, s)
  | i :: rest, s =>
    let v := (getCellD s i).value
    if v ≠ 0 ∧ valueIsSafe s i v = true then
      solveRecursively rest s
    else
      tryNumsG (fun s' => solveRecursively rest s') i [1, 2, 3, 4, 5, 6, 7, 8, 9] s

/-- The serialized grid state used by `solve`'s progress test: `repr(self)`
(lines 320, 328) displays exactly the 81 cell values, so two states have
equal `repr` strings iff their cell-value vectors agree. -/
def snapshot (s : SudokuState) : List Nat :=
  s.cells.map (·.value)

/-- Lines 331–335: collect the (indices of the) cells whose value is still
missing, in reading order. -/
def unknownCellIdxs (s : SudokuState) : List Nat :=
  (List.range s.cells.length).filter fun i => (getCellD s i).value == 0

/-- The `for block in self.__blocks` sweep inside `solve` (lines 322–326):
deduce every block that still has unknown values.  The internal fuel 100
strictly dominates the real recursion depth of `__deduce_block_values`
(each self-call consumes one of the at most 9 unknown values of the
block). -/
def deduceSweep (s : SudokuState) : SudokuState :=
  (List.range s.blocks.length).foldl
    (fun s b =>
      if (s.blocks.getD b default).unknownValues.length ≠ 0 then
        deduceBlockValues 100 s b
      else s)
    s

/-- One iteration of `solve`'s `while` body (lines 320–337): snapshot, run
the deduction sweep, and if the grid did not change, run the backtracking
search over the remaining unknown cells — discarding its Boolean result,
exactly as line 337 does. -/
def solveBody (s : SudokuState) : SudokuState :=
  let initial := snapshot s
  let s1 := deduceSweep s
  if snapshot s1 = initial then (solveRecursively (unknownCellIdxs s1) s1).2
  else s1

/-- The `while not self.is_completed()` loop of `solve` (line 319).  The
Python loop has no bound; `fuel` counts loop iterations, and `none` means
the loop was still running after `fuel` iterations. -/
def solveLoop : Nat → SudokuState → Option SudokuState
  | 0, s => if isCompleted s then some s else none
  | fuel + 1, s => if isCompleted s then some s else solveLoop fuel (solveBody s)

/-- `Sudoku.solve` (lines 306–342): run the loop, then `assert_validity`
(which sorts the unit lists in place and may raise).  The result is the
final state paired with `true` when validation passed, or `none` when the
loop had not finished within `fuel` iterations. -/
def solveSudoku (fuel : Nat) (s : SudokuState) : Option (SudokuState × Bool) :=
  (solveLoop fuel s).map assertValidity

/-- The values of the first row of the grid (cells 0–8 in reading order). -/
def firstRowValues (s : SudokuState) : List Nat :=
  (s.cells.take 9).map (·.value)

/-- The classic example board of the spec (§8, concrete scenario). -/
def classicBoard : List (List Nat) :=
  [[5, 3, 0, 0, 7, 0, 0, 0, 0],
   [6, 0, 0, 1, 9, 5, 0, 0, 0],
   [0, 9, 8, 0, 0, 0, 0, 6, 0],
   [8, 0, 0, 0, 6, 0, 0, 0, 3],
   [4, 0, 0, 8, 0, 3, 0, 0, 1],
   [7, 0, 0, 0, 2, 0, 0, 0, 6],
   [0, 6, 0, 0, 0, 0, 2, 8, 0],
   [0, 0, 0, 4, 1, 9, 0, 0, 5],
   [0, 0, 0, 0, 8, 0, 0, 7, 9]]

/-- The state built from the classic board (construction succeeds on it). -/
def classicState : SudokuState :=
  (buildSudoku classicBoard).getD default

/-- The 81 values of the solved classic board, in reading order. -/
def classicSolution : List Nat :=
  [5, 3, 4, 6, 7, 8, 9, 1, 2,
   6, 7, 2, 1, 9, 5, 3, 4, 8,
   1, 9, 8, 3, 4, 2, 5, 6, 7,
   8, 5, 9, 7, 6, 1, 4, 2, 3,
   4, 2, 6, 8, 5, 3, 7, 9, 1,
   7, 1, 3, 9, 2, 4, 8, 5, 6,
   9, 6, 1, 5, 3, 7, 2, 8, 4,
   2, 8, 7, 4, 1, 9, 6, 3, 5,
   3, 4, 5, 2, 8, 6, 1, 7, 9]

/-- A consistent board (no unit holds a duplicate) on which the deducer's
premature singleton check misfires: for cell (1,1), the block's unknowns
minus row 1's knowns is exactly `[1]`, but 1 is already fixed in column 1
(at (5,1)), so the full row-and-column intersection is empty. -/
def badBoardC1 : List (List Nat) :=
  [[0, 2, 3, 4, 5, 6, 7, 8, 9],
   [0, 0, 0, 0, 0, 0, 0, 0, 0],
   [0, 0, 0, 0, 0, 0, 0, 0, 0],
   [0, 0, 0, 0, 0, 0, 0, 0, 0],
   [1, 0, 0, 0, 0, 0, 0, 0, 0],
   [0, 0, 0, 0, 0, 0, 0, 0, 0],
   [0, 0, 0, 0, 0, 0, 0, 0, 0],
   [0, 0, 0, 0, 0, 0, 0, 0, 0],
   [0, 0, 0, 0, 0, 0, 0, 0, 0]]

/-- The state built from `badBoardC1` (construction succeeds: no unit has a
duplicate fixed value). -/
def c1State : SudokuState :=
  (buildSudoku badBoardC1).getD default

/-- The state after the deducer processes block 1 of `badBoardC1`, exactly
the first call `solve` would make. -/
def c1Deduced : SudokuState :=
  deduceBlockValues 100 c1State 0

/-- A consistent but unsolvable board: cell (1,9) is the only empty cell of
row 1 and must take 9, but column 9 already fixes 9 at (2,9).  No unit holds
a duplicate, so construction succeeds. -/
def unsolvableBoard : List (List Nat) :=
  [[1, 2, 3, 4, 5, 6, 7, 8, 0],
   [0, 0, 0, 0, 0, 0, 0, 0, 9],
   [0, 0, 0, 0, 0, 0, 0, 0, 0],
   [0, 0, 0, 0, 0, 0, 0, 0, 0],
   [0, 0, 0, 0, 0, 0, 0, 0, 0],
   [0, 0, 0, 0, 0, 0, 0, 0, 0],
   [0, 0, 0, 0, 0, 0, 0, 0, 0],
   [0, 0, 0, 0, 0, 0, 0, 0, 0],
   [0, 0, 0, 0, 0, 0, 0, 0, 0]]

/-- The state built from `unsolvableBoard`. -/
def uState : SudokuState :=
  (buildSudoku unsolvableBoard).getD default

/-- The state after one iteration of `solve`'s while-body on `uState`:
the deduction sweep assigns nothing (it only fills the write-only
`possible_values` attributes), the snapshot is unchanged, and the searcher
fails on its very first cell without mutating anything, so this state is a
fixed point of the loop body. -/
def uState1 : SudokuState :=
  solveBody uState

/-- A board on which the backtracking search, run on the cell list
`[0, 8]` (cells (1,1) and (1,9)), tries digit 1 at cell (1,1), fails at
cell (1,9), undoes the assignment, and then exhausts the remaining digits:
the overall search fails, and the undo has moved digit 1 from the middle to
the end of row 1's `unknown_values`. -/
def undoBoard : List (List Nat) :=
  [[0, 2, 3, 4, 5, 6, 7, 8, 0],
   [0, 0, 0, 0, 0, 0, 0, 0, 9],
   [0, 0, 0, 0, 0, 0, 0, 0, 0],
   [0, 0, 0, 0, 0, 0, 0, 0, 0],
   [9, 0, 0, 0, 0, 0, 0, 0, 0],
   [0, 0, 0, 0, 0, 0, 0, 0, 0],
   [0, 0, 0, 0, 0, 0, 0, 0, 0],
   [0, 0, 0, 0, 0, 0, 0, 0, 0],
   [0, 0, 0, 0, 0, 0, 0, 0, 0]]

/-- The state built from `undoBoard`. -/
def wState : SudokuState :=
  (buildSudoku undoBoard).getD default

/-- A constraint unit whose `known_values` holds nine copies of the digit 1:
an obviously invalid unit whose known-value list nevertheless has length
9. -/
def dupUnit : Subsection :=
  ⟨[], List.replicate 9 1, []⟩

/-- A grid state whose 9 rows and 9 columns all carry `dupUnit`'s
knowledge: every `known_values` list has length 9, though none holds the
digits 1–9. -/
def dupCompletedState : SudokuState :=
  { rows := List.replicate 9 dupUnit
    columns := List.replicate 9 dupUnit
    blocks := []
    cells := [] }

/-- A unit that already knows the digit 5 (and no other). -/
def doubleCommitUnit : Subsection :=
  ⟨[], [5], [1, 2, 3, 4, 6, 7, 8, 9]⟩

/-- In-place sort of a unit's `known_values`, which is exactly the side
effect `values.sort()` (line 204) has on the unit, since
`get_known_values` returns the internal list itself (line 398). -/
def sortKnowns (u : Subsection) : Subsection :=
  { u with knownValues := List.insertionSort (· ≤ ·) u.knownValues }

/-- The grid after every unit's `known_values` has been sorted in place:
the net mutation a fully successful `assert_validity` run leaves behind. -/
def sortedState (s : SudokuState) : SudokuState :=
  { s with rows := s.rows.map sortKnowns
           columns := s.columns.map sortKnowns
           blocks := s.blocks.map sortKnowns }

/-- A fully valid single-unit-per-family grid whose row's `known_values`
is a permutation of 1–9 but not sorted. -/
def unsortedValidUnit : Subsection :=
  ⟨[], [2, 1, 3, 4, 5, 6, 7, 8, 9], []⟩

/-- A grid made of `unsortedValidUnit`s: every unit holds exactly the
digits 1–9. -/
def unsortedValidState : SudokuState :=
  { rows := [unsortedValidUnit]
    columns := [unsortedValidUnit]
    blocks := [unsortedValidUnit]
    cells := [] }

/-- The invariant claimed for every constraint unit: `known_values` has no
duplicates, the two value lists are disjoint, and their union is exactly
the digits 1–9. -/
def subInvariant (u : Subsection) : Prop :=
  u.knownValues.Nodup ∧
  (∀ v ∈ u.knownValues, v ∉ u.unknownValues) ∧
  (∀ v ∈ u.knownValues, v ∈ allDigits) ∧
  (∀ v ∈ u.unknownValues, v ∈ allDigits) ∧
  (∀ v ∈ allDigits, v ∈ u.knownValues ∨ v ∈ u.unknownValues)

instance (u : Subsection) : Decidable (subInvariant u) := by
  unfold subInvariant; infer_instance

/-- `s'` agrees with `s` on every cell and on every unit's member list and
`known_values`, and each unit's `unknown_values` holds the same digits with
the same multiplicities, though possibly in a different order. -/
def restoredUpToUnknownOrder (s' s : SudokuState) : Prop :=
  s'.cells = s.cells ∧
  s'.rows.length = s.rows.length ∧
  s'.columns.length = s.columns.length ∧
  s'.blocks.length = s.blocks.length ∧
  (∀ j, (s'.rows.getD j default).cells = (s.rows.getD j default).cells ∧
        (s'.rows.getD j default).knownValues = (s.rows.getD j default).knownValues ∧
        (s'.rows.getD j default).unknownValues.Perm (s.rows.getD j default).unknownValues) ∧
  (∀ j, (s'.columns.getD j default).cells = (s.columns.getD j default).cells ∧
        (s'.columns.getD j default).knownValues = (s.columns.getD j default).knownValues ∧
        (s'.columns.getD j default).unknownValues.Perm (s.columns.getD j default).unknownValues) ∧
  (∀ j, (s'.blocks.getD j default).cells = (s.blocks.getD j default).cells ∧
        (s'.blocks.getD j default).knownValues = (s.blocks.getD j default).knownValues ∧
        (s'.blocks.getD j default).unknownValues.Perm (s.blocks.getD j default).unknownValues)

/-- The minimal bookkeeping invariant used for the construction argument:
both value lists are duplicate-free and disjoint. -/
def unitOK (u : Subsection) : Prop :=
  u.knownValues.Nodup ∧ u.unknownValues.Nodup ∧
  ∀ v ∈ u.knownValues, v ∉ u.unknownValues

/-- All three family lists still have 9 units (construction starts with 9
of each and `List.set` preserves length). -/
def famLen9 (s : SudokuState) : Prop :=
  s.rows.length = 9 ∧ s.columns.length = 9 ∧ s.blocks.length = 9

/-- `unitOK` for every unit of every family. -/
def famOK (s : SudokuState) : Prop :=
  ∀ j, unitOK (s.rows.getD j default) ∧ unitOK (s.columns.getD j default) ∧
       unitOK (s.blocks.getD j default)

/-- The board value at cell index `i` (reading order). -/
def boardValue (board : List (List Nat)) (i : Nat) : Nat :=
  (board.getD (i / 9) []).getD (i % 9) 0

/-- The 0-based block index of cell index `i`. -/
def blockOf (i : Nat) : Nat :=
  cellBlockId (i / 9 + 1) (i % 9 + 1) - 1

/-- A board that fixes the digit 5 twice in row 1. -/
def dupRowBoard : List (List Nat) :=
  [[5, 5, 0, 0, 0, 0, 0, 0, 0],
   [0, 0, 0, 0, 0, 0, 0, 0, 0],
   [0, 0, 0, 0, 0, 0, 0, 0, 0],
   [0, 0, 0, 0, 0, 0, 0, 0, 0],
   [0, 0, 0, 0, 0, 0, 0, 0, 0],
   [0, 0, 0, 0, 0, 0, 0, 0, 0],
   [0, 0, 0, 0, 0, 0, 0, 0, 0],
   [0, 0, 0, 0, 0, 0, 0, 0, 0],
   [0, 0, 0, 0, 0, 0, 0, 0, 0]]


/-- The literal value of `solveBody uState` (checked below): the result of
one iteration of the solve loop on the unsolvable board.  Deduction assigns
nothing; the only changes are the write-only `possible_values` attributes
filled in by the deducer. -/
def uLoopState : SudokuState :=
{ rows := [{ cells := [0, 1, 2, 3, 4, 5, 6, 7, 8], knownValues := [1, 2, 3, 4, 5, 6, 7, 8], unknownValues := [9] },
           { cells := [9, 10, 11, 12, 13, 14, 15, 16, 17],
             knownValues := [9],
             unknownValues := [1, 2, 3, 4, 5, 6, 7, 8] },
           { cells := [18, 19, 20, 21, 22, 23, 24, 25, 26],
             knownValues := [],
             unknownValues := [1, 2, 3, 4, 5, 6, 7, 8, 9] },
           { cells := [27, 28, 29, 30, 31, 32, 33, 34, 35],
             knownValues := [],
             unknownValues := [1, 2, 3, 4, 5, 6, 7, 8, 9] },
           { cells := [36, 37, 38, 39, 40, 41, 42, 43, 44],
             knownValues := [],
             unknownValues := [1, 2, 3, 4, 5, 6, 7, 8, 9] },
           { cells := [45, 46, 47, 48, 49, 50, 51, 52, 53],
             knownValues := [],
             unknownValues := [1, 2, 3, 4, 5, 6, 7, 8, 9] },
           { cells := [54, 55, 56, 57, 58, 59, 60, 61, 62],
             knownValues := [],
             unknownValues := [1, 2, 3, 4, 5, 6, 7, 8, 9] },
           { cells := [63, 64, 65, 66, 67, 68, 69, 70, 71],
             knownValues := [],
             unknownValues := [1, 2, 3, 4, 5, 6, 7, 8, 9] },
           { cells := [72, 73, 74, 75, 76, 77, 78, 79, 80],
             knownValues := [],
             unknownValues := [1, 2, 3, 4, 5, 6, 7, 8, 9] }],
  columns := [{ cells := [0, 9, 18, 27, 36, 45, 54, 63, 72],
                knownValues := [1],
                unknownValues := [2, 3, 4, 5, 6, 7, 8, 9] },
              { cells := [1, 10, 19, 28, 37, 46, 55, 64, 73],
                knownValues := [2],
                unknownValues := [1, 3, 4, 5, 6, 7, 8, 9] },
              { cells := [2, 11, 20, 29, 38, 47, 56, 65, 74],
                knownValues := [3],
                unknownValues := [1, 2, 4, 5, 6, 7, 8, 9] },
              { cells := [3, 12, 21, 30, 39, 48, 57, 66, 75],
                knownValues := [4],
                unknownValues := [1, 2, 3, 5, 6, 7, 8, 9] },
              { cells := [4, 13, 22, 31, 40, 49, 58, 67, 76],
                knownValues := [5],
                unknownValues := [1, 2, 3, 4, 6, 7, 8, 9] },
              { cells := [5, 14, 23, 32, 41, 50, 59, 68, 77],
                knownValues := [6],
                unknownValues := [1, 2, 3, 4, 5, 7, 8, 9] },
              { cells := [6, 15, 24, 33, 42, 51, 60, 69, 78],
                knownValues := [7],
                unknownValues := [1, 2, 3, 4, 5, 6, 8, 9] },
              { cells := [7, 16, 25, 34, 43, 52, 61, 70, 79],
                knownValues := [8],
                unknownValues := [1, 2, 3, 4, 5, 6, 7, 9] },
              { cells := [8, 17, 26, 35, 44, 53, 62, 71, 80],
                knownValues := [9],
                unknownValues := [1, 2, 3, 4, 5, 6, 7, 8] }],
  blocks := [{ cells := [0, 1, 2, 9, 10, 11, 18, 19, 20],
               knownValues := [1, 2, 3],
               unknownValues := [4, 5, 6, 7, 8, 9] },
             { cells := [3, 4, 5, 12, 13, 14, 21, 22, 23],
               knownValues := [4, 5, 6],
               unknownValues := [1, 2, 3, 7, 8, 9] },
             { cells := [6, 7, 8, 15, 16, 17, 24, 25, 26],
               knownValues := [7, 8, 9],
               unknownValues := [1, 2, 3, 4, 5, 6] },
             { cells := [27, 28, 29, 36, 37, 38, 45, 46, 47],
               knownValues := [],
               unknownValues := [1, 2, 3, 4, 5, 6, 7, 8, 9] },
             { cells := [30, 31, 32, 39, 40, 41, 48, 49, 50],
               knownValues := [],
               unknownValues := [1, 2, 3, 4, 5, 6, 7, 8, 9] },
             { cells := [33, 34, 35, 42, 43, 44, 51, 52, 53],
               knownValues := [],
               unknownValues := [1, 2, 3, 4, 5, 6, 7, 8, 9] },
             { cells := [54, 55, 56, 63, 64, 65, 72, 73, 74],
               knownValues := [],
               unknownValues := [1, 2, 3, 4, 5, 6, 7, 8, 9] },
             { cells := [57, 58, 59, 66, 67, 68, 75, 76, 77],
               knownValues := [],
               unknownValues := [1, 2, 3, 4, 5, 6, 7, 8, 9] },
             { cells := [60, 61, 62, 69, 70, 71, 78, 79, 80],
               knownValues := [],
               unknownValues := [1, 2, 3, 4, 5, 6, 7, 8, 9] }],
  cells := [{ row := 0, col := 0, block := 0, value := 1, possibleValues := none, possibleValuesTypo := none },
            { row := 0, col := 1, block := 0, value := 2, possibleValues := none, possibleValuesTypo := none },
            { row := 0, col := 2, block := 0, value := 3, possibleValues := none, possibleValuesTypo := none },
            { row := 0, col := 3, block := 1, value := 4, possibleValues := none, possibleValuesTypo := none },
            { row := 0, col := 4, block := 1, value := 5, possibleValues := none, possibleValuesTypo := none },
            { row := 0, col := 5, block := 1, value := 6, possibleValues := none, possibleValuesTypo := none },
            { row := 0, col := 6, block := 2, value := 7, possibleValues := none, possibleValuesTypo := none },
            { row := 0, col := 7, block := 2, value := 8, possibleValues := none, possibleValuesTypo := none },
            { row := 0, col := 8, block := 2, value := 0, possibleValues := none, possibleValuesTypo := some [] },
            { row := 1,
              col := 0,
              block := 0,
              value := 0,
              possibleValues := none,
              possibleValuesTypo := some [4, 5, 6, 7, 8] },
            { row := 1,
              col := 1,
              block := 0,
              value := 0,
              possibleValues := none,
              possibleValuesTypo := some [4, 5, 6, 7, 8] },
            { row := 1,
              col := 2,
              block := 0,
              value := 0,
              possibleValues := none,
              possibleValuesTypo := some [4, 5, 6, 7, 8] },
            { row := 1,
              col := 3,
              block := 1,
              value := 0,
              possibleValues := none,
              possibleValuesTypo := some [1, 2, 3, 7, 8] },
            { row := 1,
              col := 4,
              block := 1,
              value := 0,
              possibleValues := none,
              possibleValuesTypo := some [1, 2, 3, 7, 8] },
            { row := 1,
              col := 5,
              block := 1,
              value := 0,
              possibleValues := none,
              possibleValuesTypo := some [1, 2, 3, 7, 8] },
            { row := 1,
              col := 6,
              block := 2,
              value := 0,
              possibleValues := none,
              possibleValuesTypo := some [1, 2, 3, 4, 5, 6] },
            { row := 1,
              col := 7,
              block := 2,
              value := 0,
              possibleValues := none,
              possibleValuesTypo := some [1, 2, 3, 4, 5, 6] },
            { row := 1, col := 8, block := 2, value := 9, possibleValues := none, possibleValuesTypo := none },
            { row := 2,
              col := 0,
              block := 0,
              value := 0,
              possibleValues := none,
              possibleValuesTypo := some [4, 5, 6, 7, 8, 9] },
            { row := 2,
              col := 1,
              block := 0,
              value := 0,
              possibleValues := none,
              possibleValuesTypo := some [4, 5, 6, 7, 8, 9] },
            { row := 2,
              col := 2,
              block := 0,
              value := 0,
              possibleValues := none,
              possibleValuesTypo := some [4, 5, 6, 7, 8, 9] },
            { row := 2,
              col := 3,
              block := 1,
              value := 0,
              possibleValues := none,
              possibleValuesTypo := some [1, 2, 3, 7, 8, 9] },
            { row := 2,
              col := 4,
              block := 1,
              value := 0,
              possibleValues := none,
              possibleValuesTypo := some [1, 2, 3, 7, 8, 9] },
            { row := 2,
              col := 5,
              block := 1,
              value := 0,
              possibleValues := none,
              possibleValuesTypo := some [1, 2, 3, 7, 8, 9] },
            { row := 2,
              col := 6,
              block := 2,
              value := 0,
              possibleValues := none,
              possibleValuesTypo := some [1, 2, 3, 4, 5, 6] },
            { row := 2,
              col := 7,
              block := 2,
              value := 0,
              possibleValues := none,
              possibleValuesTypo := some [1, 2, 3, 4, 5, 6] },
            { row := 2,
              col := 8,
              block := 2,
              value := 0,
              possibleValues := none,
              possibleValuesTypo := some [1, 2, 3, 4, 5, 6] },
            { row := 3,
              col := 0,
              block := 3,
              value := 0,
              possibleValues := none,
              possibleValuesTypo := some [2, 3, 4, 5, 6, 7, 8, 9] },
            { row := 3,
              col := 1,
              block := 3,
              value := 0,
              possibleValues := none,
              possibleValuesTypo := some [1, 3, 4, 5, 6, 7, 8, 9] },
            { row := 3,
              col := 2,
              block := 3,
              value := 0,
              possibleValues := none,
              possibleValuesTypo := some [1, 2, 4, 5, 6, 7, 8, 9] },
            { row := 3,
              col := 3,
              block := 4,
              value := 0,
              possibleValues := none,
              possibleValuesTypo := some [1, 2, 3, 5, 6, 7, 8, 9] },
            { row := 3,
              col := 4,
              block := 4,
              value := 0,
              possibleValues := none,
              possibleValuesTypo := some [1, 2, 3, 4, 6, 7, 8, 9] },
            { row := 3,
              col := 5,
              block := 4,
              value := 0,
              possibleValues := none,
              possibleValuesTypo := some [1, 2, 3, 4, 5, 7, 8, 9] },
            { row := 3,
              col := 6,
              block := 5,
              value := 0,
              possibleValues := none,
              possibleValuesTypo := some [1, 2, 3, 4, 5, 6, 8, 9] },
            { row := 3,
              col := 7,
              block := 5,
              value := 0,
              possibleValues := none,
              possibleValuesTypo := some [1, 2, 3, 4, 5, 6, 7, 9] },
            { row := 3,
              col := 8,
              block := 5,
              value := 0,
              possibleValues := none,
              possibleValuesTypo := some [1, 2, 3, 4, 5, 6, 7, 8] },
            { row := 4,
              col := 0,
              block := 3,
              value := 0,
              possibleValues := none,
              possibleValuesTypo := some [2, 3, 4, 5, 6, 7, 8, 9] },
            { row := 4,
              col := 1,
              block := 3,
              value := 0,
              possibleValues := none,
              possibleValuesTypo := some [1, 3, 4, 5, 6, 7, 8, 9] },
            { row := 4,
              col := 2,
              block := 3,
              value := 0,
              possibleValues := none,
              possibleValuesTypo := some [1, 2, 4, 5, 6, 7, 8, 9] },
            { row := 4,
              col := 3,
              block := 4,
              value := 0,
              possibleValues := none,
              possibleValuesTypo := some [1, 2, 3, 5, 6, 7, 8, 9] },
            { row := 4,
              col := 4,
              block := 4,
              value := 0,
              possibleValues := none,
              possibleValuesTypo := some [1, 2, 3, 4, 6, 7, 8, 9] },
            { row := 4,
              col := 5,
              block := 4,
              value := 0,
              possibleValues := none,
              possibleValuesTypo := some [1, 2, 3, 4, 5, 7, 8, 9] },
            { row := 4,
              col := 6,
              block := 5,
              value := 0,
              possibleValues := none,
              possibleValuesTypo := some [1, 2, 3, 4, 5, 6, 8, 9] },
            { row := 4,
              col := 7,
              block := 5,
              value := 0,
              possibleValues := none,
              possibleValuesTypo := some [1, 2, 3, 4, 5, 6, 7, 9] },
            { row := 4,
              col := 8,
              block := 5,
              value := 0,
              possibleValues := none,
              possibleValuesTypo := some [1, 2, 3, 4, 5, 6, 7, 8] },
            { row := 5,
              col := 0,
              block := 3,
              value := 0,
              possibleValues := none,
              possibleValuesTypo := some [2, 3, 4, 5, 6, 7, 8, 9] },
            { row := 5,
              col := 1,
              block := 3,
              value := 0,
              possibleValues := none,
              possibleValuesTypo := some [1, 3, 4, 5, 6, 7, 8, 9] },
            { row := 5,
              col := 2,
              block := 3,
              value := 0,
              possibleValues := none,
              possibleValuesTypo := some [1, 2, 4, 5, 6, 7, 8, 9] },
            { row := 5,
              col := 3,
              block := 4,
              value := 0,
              possibleValues := none,
              possibleValuesTypo := some [1, 2, 3, 5, 6, 7, 8, 9] },
            { row := 5,
              col := 4,
              block := 4,
              value := 0,
              possibleValues := none,
              possibleValuesTypo := some [1, 2, 3, 4, 6, 7, 8, 9] },
            { row := 5,
              col := 5,
              block := 4,
              value := 0,
              possibleValues := none,
              possibleValuesTypo := some [1, 2, 3, 4, 5, 7, 8, 9] },
            { row := 5,
              col := 6,
              block := 5,
              value := 0,
              possibleValues := none,
              possibleValuesTypo := some [1, 2, 3, 4, 5, 6, 8, 9] },
            { row := 5,
              col := 7,
              block := 5,
              value := 0,
              possibleValues := none,
              possibleValuesTypo := some [1, 2, 3, 4, 5, 6, 7, 9] },
            { row := 5,
              col := 8,
              block := 5,
              value := 0,
              possibleValues := none,
              possibleValuesTypo := some [1, 2, 3, 4, 5, 6, 7, 8] },
            { row := 6,
              col := 0,
              block := 6,
              value := 0,
              possibleValues := none,
              possibleValuesTypo := some [2, 3, 4, 5, 6, 7, 8, 9] },
            { row := 6,
              col := 1,
              block := 6,
              value := 0,
              possibleValues := none,
              possibleValuesTypo := some [1, 3, 4, 5, 6, 7, 8, 9] },
            { row := 6,
              col := 2,
              block := 6,
              value := 0,
              possibleValues := none,
              possibleValuesTypo := some [1, 2, 4, 5, 6, 7, 8, 9] },
            { row := 6,
              col := 3,
              block := 7,
              value := 0,
              possibleValues := none,
              possibleValuesTypo := some [1, 2, 3, 5, 6, 7, 8, 9] },
            { row := 6,
              col := 4,
              block := 7,
              value := 0,
              possibleValues := none,
              possibleValuesTypo := some [1, 2, 3, 4, 6, 7, 8, 9] },
            { row := 6,
              col := 5,
              block := 7,
              value := 0,
              possibleValues := none,
              possibleValuesTypo := some [1, 2, 3, 4, 5, 7, 8, 9] },
            { row := 6,
              col := 6,
              block := 8,
              value := 0,
              possibleValues := none,
              possibleValuesTypo := some [1, 2, 3, 4, 5, 6, 8, 9] },
            { row := 6,
              col := 7,
              block := 8,
              value := 0,
              possibleValues := none,
              possibleValuesTypo := some [1, 2, 3, 4, 5, 6, 7, 9] },
            { row := 6,
              col := 8,
              block := 8,
              value := 0,
              possibleValues := none,
              possibleValuesTypo := some [1, 2, 3, 4, 5, 6, 7, 8] },
            { row := 7,
              col := 0,
              block := 6,
              value := 0,
              possibleValues := none,
              possibleValuesTypo := some [2, 3, 4, 5, 6, 7, 8, 9] },
            { row := 7,
              col := 1,
              block := 6,
              value := 0,
              possibleValues := none,
              possibleValuesTypo := some [1, 3, 4, 5, 6, 7, 8, 9] },
            { row := 7,
              col := 2,
              block := 6,
              value := 0,
              possibleValues := none,
              possibleValuesTypo := some [1, 2, 4, 5, 6, 7, 8, 9] },
            { row := 7,
              col := 3,
              block := 7,
              value := 0,
              possibleValues := none,
              possibleValuesTypo := some [1, 2, 3, 5, 6, 7, 8, 9] },
            { row := 7,
              col := 4,
              block := 7,
              value := 0,
              possibleValues := none,
              possibleValuesTypo := some [1, 2, 3, 4, 6, 7, 8, 9] },
            { row := 7,
              col := 5,
              block := 7,
              value := 0,
              possibleValues := none,
              possibleValuesTypo := some [1, 2, 3, 4, 5, 7, 8, 9] },
            { row := 7,
              col := 6,
              block := 8,
              value := 0,
              possibleValues := none,
              possibleValuesTypo := some [1, 2, 3, 4, 5, 6, 8, 9] },
            { row := 7,
              col := 7,
              block := 8,
              value := 0,
              possibleValues := none,
              possibleValuesTypo := some [1, 2, 3, 4, 5, 6, 7, 9] },
            { row := 7,
              col := 8,
              block := 8,
              value := 0,
              possibleValues := none,
              possibleValuesTypo := some [1, 2, 3, 4, 5, 6, 7, 8] },
            { row := 8,
              col := 0,
              block := 6,
              value := 0,
              possibleValues := none,
              possibleValuesTypo := some [2, 3, 4, 5, 6, 7, 8, 9] },
            { row := 8,
              col := 1,
              block := 6,
              value := 0,
              possibleValues := none,
              possibleValuesTypo := some [1, 3, 4, 5, 6, 7, 8, 9] },
            { row := 8,
              col := 2,
              block := 6,
              value := 0,
              possibleValues := none,
              possibleValuesTypo := some [1, 2, 4, 5, 6, 7, 8, 9] },
            { row := 8,
              col := 3,
              block := 7,
              value := 0,
              possibleValues := none,
              possibleValuesTypo := some [1, 2, 3, 5, 6, 7, 8, 9] },
            { row := 8,
              col := 4,
              block := 7,
              value := 0,
              possibleValues := none,
              possibleValuesTypo := some [1, 2, 3, 4, 6, 7, 8, 9] },
            { row := 8,
              col := 5,
              block := 7,
              value := 0,
              possibleValues := none,
              possibleValuesTypo := some [1, 2, 3, 4, 5, 7, 8, 9] },
            { row := 8,
              col := 6,
              block := 8,
              value := 0,
              possibleValues := none,
              possibleValuesTypo := some [1, 2, 3, 4, 5, 6, 8, 9] },
            { row := 8,
              col := 7,
              block := 8,
              value := 0,
              possibleValues := none,
              possibleValuesTypo := some [1, 2, 3, 4, 5, 6, 7, 9] },
            { row := 8,
              col := 8,
              block := 8,
              value := 0,
              possibleValues := none,
              possibleValuesTypo := some [1, 2, 3, 4, 5, 6, 7, 8] }] }

/-! ## Theorems -/

/-- **C10** `is_completed` returns `True` if and only if every row and
every column has a `known_values` list of length exactly 9; the blocks are
never consulted (replacing them changes nothing), and only the entry count
matters, so a grid whose units hold nine duplicate entries counts as
complete. -/
theorem isCompleted_counts_lengths_only :
    (∀ s : SudokuState, isCompleted s = true ↔
      ((∀ u ∈ s.rows, u.knownValues.length = 9) ∧
       (∀ u ∈ s.columns, u.knownValues.length = 9)))
    ∧ (∀ (s : SudokuState) (bl : List Subsection),
        isCompleted { s with blocks := bl } = isCompleted s)
    ∧ isCompleted dupCompletedState = true := by
  refine ⟨fun s => ?_, fun s bl => rfl, by decide⟩
  simp [isCompleted, List.all_append, List.all_eq_true, beq_iff_eq]

/-- **C7 (counterexample)** Committing the digit 5 to a unit that already
knows 5 (so 5 is no longer in `unknown_values`) is not an error: it
silently appends a duplicate entry to `known_values` and leaves
`unknown_values` untouched. -/
theorem addKnownValue_double_commit_no_error :
    (addKnownValue doubleCommitUnit 5).knownValues = [5, 5] ∧
    (addKnownValue doubleCommitUnit 5).unknownValues = doubleCommitUnit.unknownValues := by
  decide

/-- **C7 (amended)** `add_known_value` moves `v` from `unknown_values` to
`known_values` when `v` is currently unknown; when it is not, the call does
not fail but silently appends one more copy of `v` to `known_values`,
leaving `unknown_values` unchanged. -/
theorem addKnownValue_moves_or_duplicates (u : Subsection) (v : Nat) :
    (v ∈ u.unknownValues →
      (addKnownValue u v).knownValues = u.knownValues ++ [v] ∧
      u.unknownValues.Perm (v :: (addKnownValue u v).unknownValues))
    ∧ (v ∉ u.unknownValues →
      (addKnownValue u v).unknownValues = u.unknownValues ∧
      (addKnownValue u v).knownValues.count v = u.knownValues.count v + 1) := by
  constructor
  · intro h
    refine ⟨rfl, ?_⟩
    simp only [addKnownValue, if_pos h]
    exact List.perm_cons_erase h
  · intro h
    refine ⟨by simp [addKnownValue, if_neg h], ?_⟩
    simp [addKnownValue, List.count_append]

/-- Witness for `addKnownValue_moves_or_duplicates` at concrete units. -/
theorem addKnownValue_moves_or_duplicates_witness :
    ((addKnownValue ⟨[], [], allDigits⟩ 3).knownValues = [] ++ [3] ∧
      allDigits.Perm (3 :: (addKnownValue ⟨[], [], allDigits⟩ 3).unknownValues)) ∧
    ((addKnownValue doubleCommitUnit 5).unknownValues = doubleCommitUnit.unknownValues ∧
      (addKnownValue doubleCommitUnit 5).knownValues.count 5 =
        doubleCommitUnit.knownValues.count 5 + 1) :=
  ⟨(addKnownValue_moves_or_duplicates ⟨[], [], allDigits⟩ 3).1 (by decide),
   (addKnownValue_moves_or_duplicates doubleCommitUnit 5).2 (by decide)⟩

/-- **C1** On `badBoardC1`, the full candidate intersection for cell (1,1)
— block 1's unknowns minus row 1's knowns minus column 1's knowns — is
empty, yet the deducer assigns 1 to the cell (the singleton check fires
inside the `for vector in vectors` loop, after filtering only against the
row) and commits it to all three units, duplicating column 1's known
values. -/
theorem deduce_assigns_on_partial_intersection :
    ((c1State.blocks.getD 0 default).unknownValues.filter
      (fun v => decide (v ∉ (c1State.rows.getD 0 default).knownValues ∧
                        v ∉ (c1State.columns.getD 0 default).knownValues))) = []
    ∧ (getCellD c1Deduced 0).value = 1
    ∧ (c1Deduced.columns.getD 0 default).knownValues = [1, 1] := by
  decide

/-- **C8** The deducer does store a multi-candidate list on the cell — but
into the plain attribute `possible_values` created by the assignment in
`set_possible_values`, not into the name-mangled `__possible_values` that
`get_possible_values` reads: on `badBoardC1`, cell (2,1) ends up with the
six candidates `[4,5,6,7,8,9]` in the write-only attribute while
`get_possible_values` still returns `None`; and in general
`get_possible_values` is entirely unaffected by `set_possible_values`. -/
theorem possible_values_not_retrievable :
    (getCellD c1Deduced 9).possibleValuesTypo = some [4, 5, 6, 7, 8, 9] ∧
    getPossibleValues (getCellD c1Deduced 9) = none ∧
    ∀ (c : Cell) (l : List Nat),
      getPossibleValues (setPossibleValuesCell c l) = getPossibleValues c := by
  exact ⟨by decide, by decide, fun c l => rfl⟩

/-- **C4 (counterexample)** On `undoBoard`, the search over cells (1,1) and
(1,9) fails and backtracks; every cell value is restored (the snapshots
agree), but row 1's `unknown_values` went from `[1, 9]` to `[9, 1]`: the
undo appends the digit at the end of the list instead of restoring its
position, so the final state is not identical to the initial one. -/
theorem backtrack_leaves_reordered_state :
    (solveRecursively [0, 8] wState).1 = false ∧
    (solveRecursively [0, 8] wState).2 ≠ wState ∧
    ((solveRecursively [0, 8] wState).2.rows.getD 0 default).unknownValues = [9, 1] ∧
    (wState.rows.getD 0 default).unknownValues = [1, 9] ∧
    snapshot (solveRecursively [0, 8] wState).2 = snapshot wState := by
  decide

/-- **C5 (counterexample)** The invariant is not maintained at every
observable point: on `badBoardC1`, column 1 satisfies the invariant after
construction, but the very first deduction pass `solve` performs commits a
duplicate 1 into that column's `known_values`, violating it. -/
theorem invariant_broken_by_deduction_commit :
    subInvariant (c1State.columns.getD 0 default) ∧
    ¬ subInvariant (c1Deduced.columns.getD 0 default) := by
  decide

/-- **C6 (counterexample)** `assert_validity` on a fully valid grid raises
no error but does have a side effect: `get_known_values` hands out the
internal list and `values.sort()` sorts it in place, so after the run the
row's `known_values` is `[1,...,9]` instead of the original
`[2,1,3,...]`. -/
theorem assertValidity_has_side_effect :
    (assertValidity unsortedValidState).2 = true ∧
    (assertValidity unsortedValidState).1 ≠ unsortedValidState ∧
    ((assertValidity unsortedValidState).1.rows.getD 0 default).knownValues = allDigits ∧
    (unsortedValidState.rows.getD 0 default).knownValues =
      [2, 1, 3, 4, 5, 6, 7, 8, 9] := by
  decide

/-- `uState` is not complete. -/
lemma uState_incomplete : isCompleted uState = false := by decide

/-- One iteration of the solve loop body on `uState` yields exactly
`uLoopState`: deduction assigns nothing and only fills the write-only
candidate attributes, the snapshot is unchanged, and the search fails on
its very first cell (cell (1,9) has no safe digit) without mutating
anything. -/
lemma solveBody_uState : solveBody uState = uLoopState := by rfl

/-- `uLoopState` is not complete. -/
lemma uLoopState_incomplete : isCompleted uLoopState = false := by decide

/-- `uLoopState` is a fixed point of the loop body: the deduction sweep
recomputes the same candidate attributes and the search fails again
without mutating anything. -/
lemma uLoopState_fixedpoint : solveBody uLoopState = uLoopState := by rfl

/-- From `uLoopState` the solve loop never terminates, whatever the
fuel. -/
lemma solveLoop_uLoopState_none : ∀ fuel, solveLoop fuel uLoopState = none := by
  intro fuel
  induction fuel with
  | zero => simp [solveLoop, uLoopState_incomplete]
  | succ n ih => simp [solveLoop, uLoopState_incomplete, uLoopState_fixedpoint, ih]

/-- **C2** On the consistent but unsolvable `unsolvableBoard`,
construction succeeds, the top-level search exhausts all branches and
reports failure — but `solve` (line 337) discards that Boolean, so the
`while` loop re-runs deduction and the failing search on an unchanged grid
forever: no fuel makes the loop terminate.  The failure is never surfaced
to the caller; the claimed failure result does not exist in the code. -/
theorem solve_diverges_on_unsolvable :
    buildSudoku unsolvableBoard = some uState ∧
    (solveRecursively (unknownCellIdxs uLoopState) uLoopState).1 = false ∧
    ∀ fuel, solveLoop fuel uState = none := by
  refine ⟨by rfl, by decide, fun fuel => ?_⟩
  cases fuel with
  | zero => simp [solveLoop, uState_incomplete]
  | succ n =>
    simp [solveLoop, uState_incomplete, solveBody_uState, solveLoop_uLoopState_none]

/-- **C3** Running `solve` on the classic board terminates (three sweeps of
deduction suffice), produces exactly the well-known unique completion —
first row `5,3,4,6,7,8,9,1,2` — passes the validator, and leaves the grid
complete; moreover the completion extends the input: every nonzero clue of
the board is unchanged in the solution. -/
theorem solve_classic_board :
    (solveLoop 30 classicState).map
        (fun s => (firstRowValues s, snapshot s, isCompleted s, (assertValidity s).2))
      = some ([5, 3, 4, 6, 7, 8, 9, 1, 2], classicSolution, true, true)
    ∧ ((boardEntries classicBoard).all
        (fun e => e.2 == 0 || classicSolution.getD e.1 0 == e.2)) = true := by
  exact ⟨by rfl, by decide⟩

/-- Sorting a permutation of the digits 1–9 yields exactly `[1,...,9]`. -/
lemma insertionSort_of_perm_allDigits {l : List Nat} (h : l.Perm allDigits) :
    List.insertionSort (· ≤ ·) l = allDigits :=
  List.eq_of_perm_of_sorted ((List.perm_insertionSort _ l).trans h)
    (List.sorted_insertionSort _ l) (by decide)

/-- On a family list whose every unit's `known_values` is a permutation of
the digits, the validator's inner loop sorts every unit in place and
passes. -/
lemma assertUnitList_all_perm (l : List Subsection) :
    (∀ u ∈ l, u.knownValues.Perm allDigits) →
    assertUnitList l = (l.map sortKnowns, true) := by
  induction l with
  | nil => intro _; rfl
  | cons u us ih =>
    intro h
    have hu : List.insertionSort (· ≤ ·) u.knownValues = allDigits :=
      insertionSort_of_perm_allDigits (h u (by simp))
    have hus := ih (fun v hv => h v (by simp [hv]))
    simp [assertUnitList, hu, hus, sortKnowns]

/-- `sortKnowns` is idempotent on units whose knowns are a permutation of
the digits. -/
lemma sortKnowns_idem {u : Subsection} (h : u.knownValues.Perm allDigits) :
    sortKnowns (sortKnowns u) = sortKnowns u := by
  have h1 : (sortKnowns u).knownValues = allDigits := insertionSort_of_perm_allDigits h
  show { sortKnowns u with
         knownValues := List.insertionSort (· ≤ ·) (sortKnowns u).knownValues } = sortKnowns u
  rw [h1, show List.insertionSort (· ≤ ·) allDigits = allDigits by decide, ← h1]

/-- **C6 (amended)** On a grid whose every row, column and block knows
exactly the digits 1–9, `assert_validity` raises no error, and its one and
only side effect is sorting each unit's `known_values` list in place
(through the internal list that `get_known_values` returns); running it
again after that first sorting pass is a true no-op.  The read accessors
return the internal lists, not copies — which is exactly why the first run
mutates the units. -/
theorem assertValidity_on_valid_sorts_in_place (s : SudokuState)
    (h : ∀ u ∈ s.rows ++ s.columns ++ s.blocks, u.knownValues.Perm allDigits) :
    (assertValidity s).2 = true ∧
    (assertValidity s).1 = sortedState s ∧
    assertValidity (sortedState s) = (sortedState s, true) := by
  rw [List.append_assoc] at h
  simp only [List.mem_append, List.mem_append] at h
  have hr : ∀ u ∈ s.rows, u.knownValues.Perm allDigits := fun u hu => h u (Or.inl hu)
  have hc : ∀ u ∈ s.columns, u.knownValues.Perm allDigits :=
    fun u hu => h u (Or.inr (Or.inl hu))
  have hb : ∀ u ∈ s.blocks, u.knownValues.Perm allDigits :=
    fun u hu => h u (Or.inr (Or.inr hu))
  have sorted_perm : ∀ (l : List Subsection),
      (∀ u ∈ l, u.knownValues.Perm allDigits) →
      ∀ u ∈ l.map sortKnowns, u.knownValues.Perm allDigits := by
    intro l hl u hu
    obtain ⟨v, hv, rfl⟩ := List.mem_map.mp hu
    rw [show (sortKnowns v).knownValues = List.insertionSort (· ≤ ·) v.knownValues from rfl,
      insertionSort_of_perm_allDigits (hl v hv)]
  have idem : ∀ (l : List Subsection),
      (∀ u ∈ l, u.knownValues.Perm allDigits) →
      (l.map sortKnowns).map sortKnowns = l.map sortKnowns := by
    intro l hl
    rw [List.map_map]
    exact List.map_congr_left (fun u hu => sortKnowns_idem (hl u hu))
  refine ⟨?_, ?_, ?_⟩
  · simp [assertValidity, assertUnitList_all_perm s.rows hr,
      assertUnitList_all_perm s.columns hc, assertUnitList_all_perm s.blocks hb]
  · simp [assertValidity, assertUnitList_all_perm s.rows hr,
      assertUnitList_all_perm s.columns hc, assertUnitList_all_perm s.blocks hb,
      sortedState]
  · show assertValidity
      { s with rows := s.rows.map sortKnowns, columns := s.columns.map sortKnowns,
               blocks := s.blocks.map sortKnowns } = _
    simp [assertValidity,
      assertUnitList_all_perm _ (sorted_perm s.rows hr),
      assertUnitList_all_perm _ (sorted_perm s.columns hc),
      assertUnitList_all_perm _ (sorted_perm s.blocks hb),
      sortedState, idem s.rows hr, idem s.columns hc, idem s.blocks hb]

/-- Witness for `assertValidity_on_valid_sorts_in_place` at the concrete
`unsortedValidState`. -/
theorem assertValidity_on_valid_sorts_in_place_witness :
    (assertValidity unsortedValidState).2 = true ∧
    (assertValidity unsortedValidState).1 = sortedState unsortedValidState ∧
    assertValidity (sortedState unsortedValidState) =
      (sortedState unsortedValidState, true) :=
  assertValidity_on_valid_sorts_in_place unsortedValidState (by decide)

/-- Reading back the element just written by `List.set`. -/
lemma getD_set_self {α : Type} {l : List α} {i : Nat} (h : i < l.length) (a d : α) :
    (l.set i a).getD i d = a := by
  simp [List.getD_eq_getElem?_getD, List.getElem?_set_self h]

/-- `List.set` leaves other positions unchanged. -/
lemma getD_set_ne {α : Type} {l : List α} {i j : Nat} (h : i ≠ j) (a d : α) :
    (l.set i a).getD j d = l.getD j d := by
  simp [List.getD_eq_getElem?_getD, List.getElem?_set_ne h]

/-- Writing back the element already present is a no-op. -/
lemma set_getD_self {α : Type} : ∀ (l : List α) (i : Nat) (d : α), i < l.length →
    l.set i (l.getD i d) = l
  | [], i, d, h => by simp at h
  | a :: t, 0, d, _ => by simp
  | a :: t, i + 1, d, h => by
    simp only [List.getD_cons_succ, List.set_cons_succ]
    rw [set_getD_self t i d (by simpa using h)]

/-- Two successive in-place updates of the same unit collapse. -/
lemma updAt_updAt (l : List Subsection) (j : Nat) (f g : Subsection → Subsection)
    (h : j < l.length) :
    updAt (updAt l j f) j g = l.set j (g (f (l.getD j default))) := by
  unfold updAt
  rw [getD_set_self h, List.set_set]

/-- Undoing a commit restores `known_values` exactly and sends the digit to
the *end* of `unknown_values`. -/
lemma removeKnown_addKnown_roundtrip (u : Subsection) (n : Nat)
    (h1 : n ∉ u.knownValues) (h2 : n ∈ u.unknownValues) :
    removeKnownValue (addKnownValue u n) n =
      ⟨u.cells, u.knownValues, u.unknownValues.erase n ++ [n]⟩ := by
  unfold addKnownValue removeKnownValue
  rw [if_pos h2]
  simp only
  rw [if_pos (by simp : n ∈ u.knownValues ++ [n])]
  congr 1
  rw [List.erase_append_right _ h1]
  simp

/-- The digit returns to the unknown set, only at a different position. -/
lemma erase_append_singleton_perm {l : List Nat} {n : Nat} (h : n ∈ l) :
    (l.erase n ++ [n]).Perm l :=
  (List.perm_append_singleton n _).trans (List.perm_cons_erase h).symm

/-- **C4 (amended)** For a tentative assignment of digit `n` to an unknown
cell `i` (value 0, no stale candidates), with `n` absent from the known
values and present in the unknown values of the cell's row, column and
block — exactly the situation of every digit the searcher tries — the undo
of lines 299–302 restores the cell values and every unit's `known_values`
list exactly, and restores every unit's `unknown_values` as a multiset:
the digit is appended at the end rather than at its original position, so
the state is restored only up to the order of the three touched
`unknown_values` lists. -/
theorem tentative_undo_restores_up_to_order (s : SudokuState) (i n : Nat)
    (hi : i < s.cells.length)
    (hv : (getCellD s i).value = 0)
    (hp : (getCellD s i).possibleValues = none)
    (hR : (getCellD s i).row < s.rows.length)
    (hC : (getCellD s i).col < s.columns.length)
    (hB : (getCellD s i).block < s.blocks.length)
    (hkr : n ∉ (s.rows.getD (getCellD s i).row default).knownValues)
    (hur : n ∈ (s.rows.getD (getCellD s i).row default).unknownValues)
    (hkc : n ∉ (s.columns.getD (getCellD s i).col default).knownValues)
    (huc : n ∈ (s.columns.getD (getCellD s i).col default).unknownValues)
    (hkb : n ∉ (s.blocks.getD (getCellD s i).block default).knownValues)
    (hub : n ∈ (s.blocks.getD (getCellD s i).block default).unknownValues) :
    restoredUpToUnknownOrder (undoAssign (tentativeAssign s i n) i n) s := by
  set c := getCellD s i with hc
  -- the cell re-read after the tentative assignment
  have hc' : getCellD (tentativeAssign s i n) i = setValueCell c n := by
    show (s.cells.set i (setValueCell c n)).getD i default = setValueCell c n
    exact getD_set_self (by simpa using hi) _ _
  have hcell : setValueCell (setValueCell c n) 0 = c := by
    cases hcv : c with
    | mk r cc b v pv pt =>
      rw [hcv] at hv hp
      simp only at hv hp
      simp [setValueCell, hv, hp]
  -- the composite state after assign-then-undo
  have main : undoAssign (tentativeAssign s i n) i n =
      ⟨s.rows.set c.row (removeKnownValue (addKnownValue (s.rows.getD c.row default) n) n),
       s.columns.set c.col (removeKnownValue (addKnownValue (s.columns.getD c.col default) n) n),
       s.blocks.set c.block (removeKnownValue (addKnownValue (s.blocks.getD c.block default) n) n),
       s.cells⟩ := by
    show (⟨updAt (updAt s.rows c.row (fun u => addKnownValue u n))
              (getCellD (tentativeAssign s i n) i).row (fun u => removeKnownValue u n),
           updAt (updAt s.columns c.col (fun u => addKnownValue u n))
              (getCellD (tentativeAssign s i n) i).col (fun u => removeKnownValue u n),
           updAt (updAt s.blocks c.block (fun u => addKnownValue u n))
              (getCellD (tentativeAssign s i n) i).block (fun u => removeKnownValue u n),
           (s.cells.set i (setValueCell c n)).set i
              (setValueCell (getCellD (tentativeAssign s i n) i) 0)⟩ : SudokuState) = _
    rw [hc']
    show (⟨updAt (updAt s.rows c.row (fun u => addKnownValue u n)) c.row
              (fun u => removeKnownValue u n),
           updAt (updAt s.columns c.col (fun u => addKnownValue u n)) c.col
              (fun u => removeKnownValue u n),
           updAt (updAt s.blocks c.block (fun u => addKnownValue u n)) c.block
              (fun u => removeKnownValue u n),
           (s.cells.set i (setValueCell c n)).set i (setValueCell (setValueCell c n) 0)⟩ :
         SudokuState) = _
    rw [updAt_updAt _ _ _ _ hR, updAt_updAt _ _ _ _ hC, updAt_updAt _ _ _ _ hB,
      List.set_set, hcell]
    congr 1
    rw [hc]
    exact set_getD_self s.cells i default hi
  rw [main]
  refine ⟨rfl, by simp, by simp, by simp, ?_, ?_, ?_⟩
  · intro j
    by_cases hj : j = c.row
    · subst hj
      rw [getD_set_self hR, removeKnown_addKnown_roundtrip _ n hkr hur]
      exact ⟨rfl, rfl, erase_append_singleton_perm hur⟩
    · rw [getD_set_ne (Ne.symm hj)]
      exact ⟨rfl, rfl, List.Perm.refl _⟩
  · intro j
    by_cases hj : j = c.col
    · subst hj
      rw [getD_set_self hC, removeKnown_addKnown_roundtrip _ n hkc huc]
      exact ⟨rfl, rfl, erase_append_singleton_perm huc⟩
    · rw [getD_set_ne (Ne.symm hj)]
      exact ⟨rfl, rfl, List.Perm.refl _⟩
  · intro j
    by_cases hj : j = c.block
    · subst hj
      rw [getD_set_self hB, removeKnown_addKnown_roundtrip _ n hkb hub]
      exact ⟨rfl, rfl, erase_append_singleton_perm hub⟩
    · rw [getD_set_ne (Ne.symm hj)]
      exact ⟨rfl, rfl, List.Perm.refl _⟩

/-- Witness for `tentative_undo_restores_up_to_order`: the first digit the
searcher tries on `undoBoard`. -/
theorem tentative_undo_restores_up_to_order_witness :
    restoredUpToUnknownOrder (undoAssign (tentativeAssign wState 0 1) 0 1) wState :=
  tentative_undo_restores_up_to_order wState 0 1 (by decide) (by decide) (by decide)
    (by decide) (by decide) (by decide) (by decide) (by decide) (by decide) (by decide)
    (by decide) (by decide)

/-- Moving a digit from `unknown_values` to `known_values` preserves the
unit invariant (whatever happens to the member list). -/
lemma subInvariant_move (u : Subsection) (v : Nat) (cl : List Nat)
    (hnd : u.unknownValues.Nodup) (h : subInvariant u) (hv : v ∈ u.unknownValues) :
    subInvariant ⟨cl, u.knownValues ++ [v], u.unknownValues.erase v⟩ ∧
    (u.unknownValues.erase v).Nodup := by
  obtain ⟨hnk, hdisj, hkd, hud, hcov⟩ := h
  have hvk : v ∉ u.knownValues := fun hk => hdisj v hk hv
  have herased : (u.unknownValues.erase v).Nodup := hnd.erase v
  refine ⟨⟨?_, ?_, ?_, ?_, ?_⟩, herased⟩
  · exact ((List.perm_append_singleton v u.knownValues).nodup_iff).mpr
      (List.nodup_cons.mpr ⟨hvk, hnk⟩)
  · intro w hw
    rcases List.mem_append.mp hw with hw | hw
    · exact fun hmem => hdisj w hw (List.mem_of_mem_erase hmem)
    · rw [List.mem_singleton.mp hw]
      exact hnd.not_mem_erase
  · intro w hw
    rcases List.mem_append.mp hw with hw | hw
    · exact hkd w hw
    · rw [List.mem_singleton.mp hw]; exact hud v hv
  · intro w hw
    exact hud w (List.mem_of_mem_erase hw)
  · intro d hd
    rcases hcov d hd with hk | hu
    · exact Or.inl (List.mem_append.mpr (Or.inl hk))
    · by_cases hdv : d = v
      · exact Or.inl (List.mem_append.mpr (Or.inr (by simp [hdv])))
      · exact Or.inr ((List.mem_erase_of_ne hdv).mpr hu)

/-- **C5 (amended)** The unit invariant — duplicate-free `known_values`
disjoint from (duplicate-free) `unknown_values`, with union exactly the
digits 1–9 — is preserved by `add_known_value` when the digit is currently
unknown, by `remove_known_value` when the digit is known and not unknown,
and by every successful `add_cell`.  (Without those preconditions the
methods break it, as the counterexample shows.) -/
theorem subInvariant_preserved_with_preconditions (u : Subsection) (v i w : Nat) :
    (u.unknownValues.Nodup → subInvariant u → v ∈ u.unknownValues →
      subInvariant (addKnownValue u v) ∧ (addKnownValue u v).unknownValues.Nodup)
    ∧ (u.unknownValues.Nodup → subInvariant u → v ∈ u.knownValues → v ∉ u.unknownValues →
      subInvariant (removeKnownValue u v) ∧ (removeKnownValue u v).unknownValues.Nodup)
    ∧ (∀ u', u.unknownValues.Nodup → subInvariant u → addCell u i w = some u' →
      subInvariant u' ∧ u'.unknownValues.Nodup) := by
  refine ⟨?_, ?_, ?_⟩
  · intro hnd h hv
    have := subInvariant_move u v u.cells hnd h hv
    simpa [addKnownValue, if_pos hv] using this
  · intro hnd h hk hnu
    obtain ⟨hnk, hdisj, hkd, hud, hcov⟩ := h
    have hrm : removeKnownValue u v =
        ⟨u.cells, u.knownValues.erase v, u.unknownValues ++ [v]⟩ := by
      simp [removeKnownValue, if_pos hk]
    rw [hrm]
    have hnewu : (u.unknownValues ++ [v]).Nodup :=
      ((List.perm_append_singleton v u.unknownValues).nodup_iff).mpr
        (List.nodup_cons.mpr ⟨hnu, hnd⟩)
    refine ⟨⟨hnk.erase v, ?_, ?_, ?_, ?_⟩, hnewu⟩
    · intro x hx hmem
      rcases List.mem_append.mp hmem with hm | hm
      · exact hdisj x (List.mem_of_mem_erase hx) hm
      · exact hnk.not_mem_erase (List.mem_singleton.mp hm ▸ hx)
    · intro x hx; exact hkd x (List.mem_of_mem_erase hx)
    · intro x hx
      rcases List.mem_append.mp hx with hm | hm
      · exact hud x hm
      · rw [List.mem_singleton.mp hm]; exact hkd v hk
    · intro d hd
      rcases hcov d hd with hm | hm
      · by_cases hdv : d = v
        · exact Or.inr (List.mem_append.mpr (Or.inr (by simp [hdv])))
        · exact Or.inl ((List.mem_erase_of_ne hdv).mpr hm)
      · exact Or.inr (List.mem_append.mpr (Or.inl hm))
  · intro u' hnd h hadd
    by_cases hw : w = 0
    · subst hw
      simp [addCell] at hadd
      subst hadd
      exact ⟨h, hnd⟩
    · by_cases hmem : w ∈ u.unknownValues
      · have heq : addCell u i w =
            some ⟨u.cells ++ [i], u.knownValues ++ [w], u.unknownValues.erase w⟩ := by
          simp [addCell, hw, eraseE, hmem]
        rw [heq] at hadd
        obtain rfl := Option.some.inj hadd
        exact subInvariant_move u w (u.cells ++ [i]) hnd h hmem
      · have heq : addCell u i w = none := by simp [addCell, hw, eraseE, hmem]
        rw [heq] at hadd
        exact absurd hadd (by simp)

/-- Witness for `subInvariant_preserved_with_preconditions` at concrete
units. -/
theorem subInvariant_preserved_witness :
    (subInvariant (addKnownValue ⟨[], [], allDigits⟩ 4) ∧
      (addKnownValue ⟨[], [], allDigits⟩ 4).unknownValues.Nodup) ∧
    (subInvariant (removeKnownValue doubleCommitUnit 5) ∧
      (removeKnownValue doubleCommitUnit 5).unknownValues.Nodup) ∧
    (subInvariant (⟨[0], [7], allDigits.erase 7⟩ : Subsection) ∧
      (allDigits.erase 7).Nodup) :=
  ⟨(subInvariant_preserved_with_preconditions ⟨[], [], allDigits⟩ 4 0 0).1
      (by decide) (by decide) (by decide),
   (subInvariant_preserved_with_preconditions doubleCommitUnit 5 0 0).2.1
      (by decide) (by decide) (by decide) (by decide),
   (subInvariant_preserved_with_preconditions ⟨[], [], allDigits⟩ 0 0 7).2.2
      ⟨[0], [7], allDigits.erase 7⟩ (by decide) (by decide) (by decide)⟩

/-- Splitting a registration run at a list concatenation. -/
lemma registerAll_append (l1 l2 : List (Nat × Nat)) :
    ∀ s, registerAll s (l1 ++ l2) = (registerAll s l1).bind (fun s' => registerAll s' l2) := by
  induction l1 with
  | nil => intro s; rfl
  | cons e es ih =>
    intro s
    show (match registerCell s e.1 e.2 with
          | none => none
          | some s' => registerAll s' (es ++ l2)) = _
    cases h : registerCell s e.1 e.2 with
    | none => simp [registerAll, h]
    | some s1 => simpa [registerAll, h] using ih s1

/-- Anatomy of a successful `add_cell`: either the value was 0 and only the
member list grew, or the value was moved from the unknowns to the end of
the knowns. -/
lemma addCell_some {u u' : Subsection} {i v : Nat} (h : addCell u i v = some u') :
    (v = 0 ∧ u' = ⟨u.cells ++ [i], u.knownValues, u.unknownValues⟩) ∨
    (v ≠ 0 ∧ v ∈ u.unknownValues ∧
      u' = ⟨u.cells ++ [i], u.knownValues ++ [v], u.unknownValues.erase v⟩) := by
  by_cases hv : v = 0
  · subst hv
    simp [addCell] at h
    exact Or.inl ⟨rfl, h.symm⟩
  · by_cases hmem : v ∈ u.unknownValues
    · have heq : addCell u i v =
          some ⟨u.cells ++ [i], u.knownValues ++ [v], u.unknownValues.erase v⟩ := by
        simp [addCell, hv, eraseE, hmem]
      rw [heq] at h
      exact Or.inr ⟨hv, hmem, (Option.some.inj h).symm⟩
    · have heq : addCell u i v = none := by simp [addCell, hv, eraseE, hmem]
      rw [heq] at h
      exact absurd h (by simp)

/-- A successful `add_cell` never decreases any digit's multiplicity in
`known_values`. -/
lemma addCell_count_le {u u' : Subsection} {i v : Nat} (h : addCell u i v = some u')
    (w : Nat) : u.knownValues.count w ≤ u'.knownValues.count w := by
  rcases addCell_some h with ⟨_, rfl⟩ | ⟨_, _, rfl⟩
  · exact le_refl _
  · simp [List.count_append]

/-- A successful `add_cell` with a nonzero value bumps that value's
multiplicity in `known_values` by one. -/
lemma addCell_count_self {u u' : Subsection} {i v : Nat} (h : addCell u i v = some u')
    (hv : v ≠ 0) : u'.knownValues.count v = u.knownValues.count v + 1 := by
  rcases addCell_some h with ⟨h0, _⟩ | ⟨_, _, rfl⟩
  · exact absurd h0 hv
  · simp [List.count_append]

/-- A successful `add_cell` preserves `unitOK`. -/
lemma addCell_unitOK {u u' : Subsection} {i v : Nat} (h : addCell u i v = some u')
    (hOK : unitOK u) : unitOK u' := by
  obtain ⟨hnk, hnu, hdisj⟩ := hOK
  rcases addCell_some h with ⟨_, rfl⟩ | ⟨_, hmem, rfl⟩
  · exact ⟨hnk, hnu, hdisj⟩
  · refine ⟨?_, hnu.erase v, ?_⟩
    · exact ((List.perm_append_singleton v u.knownValues).nodup_iff).mpr
        (List.nodup_cons.mpr ⟨fun hk => hdisj v hk hmem, hnk⟩)
    · intro w hw
      rcases List.mem_append.mp hw with hw | hw
      · exact fun hm => hdisj w hw (List.mem_of_mem_erase hm)
      · rw [List.mem_singleton.mp hw]
        exact hnu.not_mem_erase

/-- Reading any position of a list after `List.set`: either the position is
untouched, or it is the (in-bounds) written position. -/
lemma getD_set_cases (l : List Subsection) (k j : Nat) (x : Subsection) :
    (l.set k x).getD j default = l.getD j default ∨
    (j = k ∧ k < l.length ∧ (l.set k x).getD j default = x) := by
  by_cases hj : j = k
  · subst hj
    by_cases hk : j < l.length
    · exact Or.inr ⟨rfl, hk, getD_set_self hk x default⟩
    · rw [List.set_eq_of_length_le (by omega)]
      exact Or.inl rfl
  · exact Or.inl (getD_set_ne (Ne.symm hj) x default)

/-- Anatomy of a successful cell registration: the three `add_cell` calls
succeeded, and each family list was updated at the cell's unit index. -/
lemma registerCell_some {s s' : SudokuState} {i v : Nat}
    (h : registerCell s i v = some s') :
    ∃ ru cu bu,
      addCell (s.rows.getD (i / 9) default) i v = some ru ∧
      addCell (s.columns.getD (i % 9) default) i v = some cu ∧
      addCell (s.blocks.getD (blockOf i) default) i v = some bu ∧
      s'.rows = s.rows.set (i / 9) ru ∧
      s'.columns = s.columns.set (i % 9) cu ∧
      s'.blocks = s.blocks.set (blockOf i) bu := by
  simp only [registerCell, blockOf] at h ⊢
  cases hb : addCell (s.blocks.getD (cellBlockId (i / 9 + 1) (i % 9 + 1) - 1) default) i v with
  | none => rw [hb] at h; exact absurd h (by simp)
  | some bu =>
    rw [hb] at h
    cases hr : addCell (s.rows.getD (i / 9) default) i v with
    | none => rw [hr] at h; exact absurd h (by simp)
    | some ru =>
      rw [hr] at h
      cases hc : addCell (s.columns.getD (i % 9) default) i v with
      | none => rw [hc] at h; exact absurd h (by simp)
      | some cu =>
        rw [hc] at h
        obtain rfl := (Option.some.inj h).symm
        exact ⟨ru, cu, bu, rfl, rfl, rfl, rfl, rfl, rfl⟩

/-- The block id chain always produces a block index below 9. -/
lemma blockOf_lt (i : Nat) : blockOf i < 9 := by
  unfold blockOf cellBlockId
  split_ifs <;> omega

/-- One registration step preserves the family lengths. -/
lemma registerCell_famLen9 {s s' : SudokuState} {i v : Nat}
    (h : registerCell s i v = some s') (hl : famLen9 s) : famLen9 s' := by
  obtain ⟨ru, cu, bu, _, _, _, hr, hc, hb⟩ := registerCell_some h
  exact ⟨by rw [hr, List.length_set]; exact hl.1,
         by rw [hc, List.length_set]; exact hl.2.1,
         by rw [hb, List.length_set]; exact hl.2.2⟩

/-- A whole registration run preserves the family lengths. -/
lemma registerAll_famLen9 : ∀ (es : List (Nat × Nat)) (s s' : SudokuState),
    registerAll s es = some s' → famLen9 s → famLen9 s'
  | [], s, s', h, hl => by
    simp [registerAll] at h
    exact h ▸ hl
  | e :: es, s, s', h, hl => by
    simp only [registerAll] at h
    cases hstep : registerCell s e.1 e.2 with
    | none => rw [hstep] at h; exact absurd h (by simp)
    | some s1 =>
      rw [hstep] at h
      exact registerAll_famLen9 es s1 s' h (registerCell_famLen9 hstep hl)

/-- One registration step preserves `unitOK` of every unit of every
family. -/
lemma registerCell_famOK {s s' : SudokuState} {i v : Nat}
    (h : registerCell s i v = some s') (hOK : famOK s) : famOK s' := by
  obtain ⟨ru, cu, bu, har, hac, hab, hr, hc, hb⟩ := registerCell_some h
  intro j
  refine ⟨?_, ?_, ?_⟩
  · rw [hr]
    rcases getD_set_cases s.rows (i / 9) j ru with heq | ⟨_, _, heq⟩
    · rw [heq]; exact (hOK j).1
    · rw [heq]; exact addCell_unitOK har (hOK (i / 9)).1
  · rw [hc]
    rcases getD_set_cases s.columns (i % 9) j cu with heq | ⟨_, _, heq⟩
    · rw [heq]; exact (hOK j).2.1
    · rw [heq]; exact addCell_unitOK hac (hOK (i % 9)).2.1
  · rw [hb]
    rcases getD_set_cases s.blocks (blockOf i) j bu with heq | ⟨_, _, heq⟩
    · rw [heq]; exact (hOK j).2.2
    · rw [heq]; exact addCell_unitOK hab (hOK (blockOf i)).2.2

/-- A whole registration run preserves `unitOK` everywhere. -/
lemma registerAll_famOK : ∀ (es : List (Nat × Nat)) (s s' : SudokuState),
    registerAll s es = some s' → famOK s → famOK s'
  | [], s, s', h, hOK => by
    simp [registerAll] at h
    exact h ▸ hOK
  | e :: es, s, s', h, hOK => by
    simp only [registerAll] at h
    cases hstep : registerCell s e.1 e.2 with
    | none => rw [hstep] at h; exact absurd h (by simp)
    | some s1 =>
      rw [hstep] at h
      exact registerAll_famOK es s1 s' h (registerCell_famOK hstep hOK)

/-- One registration step never decreases any digit's multiplicity in any
unit's `known_values`, in any family. -/
lemma registerCell_count_le {s s' : SudokuState} {i v : Nat}
    (h : registerCell s i v = some s') (j w : Nat) :
    (s.rows.getD j default).knownValues.count w ≤
      (s'.rows.getD j default).knownValues.count w ∧
    (s.columns.getD j default).knownValues.count w ≤
      (s'.columns.getD j default).knownValues.count w ∧
    (s.blocks.getD j default).knownValues.count w ≤
      (s'.blocks.getD j default).knownValues.count w := by
  obtain ⟨ru, cu, bu, har, hac, hab, hr, hc, hb⟩ := registerCell_some h
  refine ⟨?_, ?_, ?_⟩
  · rw [hr]
    rcases getD_set_cases s.rows (i / 9) j ru with heq | ⟨rfl, _, heq⟩
    · rw [heq]
    · rw [heq]; exact addCell_count_le har w
  · rw [hc]
    rcases getD_set_cases s.columns (i % 9) j cu with heq | ⟨rfl, _, heq⟩
    · rw [heq]
    · rw [heq]; exact addCell_count_le hac w
  · rw [hb]
    rcases getD_set_cases s.blocks (blockOf i) j bu with heq | ⟨rfl, _, heq⟩
    · rw [heq]
    · rw [heq]; exact addCell_count_le hab w

/-- A whole registration run never decreases those multiplicities. -/
lemma registerAll_count_le : ∀ (es : List (Nat × Nat)) (s s' : SudokuState),
    registerAll s es = some s' → ∀ (j w : Nat),
    (s.rows.getD j default).knownValues.count w ≤
      (s'.rows.getD j default).knownValues.count w ∧
    (s.columns.getD j default).knownValues.count w ≤
      (s'.columns.getD j default).knownValues.count w ∧
    (s.blocks.getD j default).knownValues.count w ≤
      (s'.blocks.getD j default).knownValues.count w
  | [], s, s', h, j, w => by
    simp [registerAll] at h
    subst h
    exact ⟨le_refl _, le_refl _, le_refl _⟩
  | e :: es, s, s', h, j, w => by
    simp only [registerAll] at h
    cases hstep : registerCell s e.1 e.2 with
    | none => rw [hstep] at h; exact absurd h (by simp)
    | some s1 =>
      rw [hstep] at h
      obtain ⟨a1, a2, a3⟩ := registerCell_count_le hstep j w
      obtain ⟨b1, b2, b3⟩ := registerAll_count_le es s1 s' h j w
      exact ⟨a1.trans b1, a2.trans b2, a3.trans b3⟩

/-- A registration step with a nonzero value bumps that value's
multiplicity in the cell's own row, column and block (the families still
having their 9 units). -/
lemma registerCell_count_inc {s s' : SudokuState} {i v : Nat}
    (h : registerCell s i v = some s') (hv : v ≠ 0) (hl : famLen9 s) (hi : i < 81) :
    (s.rows.getD (i / 9) default).knownValues.count v + 1 ≤
      (s'.rows.getD (i / 9) default).knownValues.count v ∧
    (s.columns.getD (i % 9) default).knownValues.count v + 1 ≤
      (s'.columns.getD (i % 9) default).knownValues.count v ∧
    (s.blocks.getD (blockOf i) default).knownValues.count v + 1 ≤
      (s'.blocks.getD (blockOf i) default).knownValues.count v := by
  obtain ⟨ru, cu, bu, har, hac, hab, hr, hc, hb⟩ := registerCell_some h
  refine ⟨?_, ?_, ?_⟩
  · rw [hr, getD_set_self (by rw [hl.1]; omega) ru default,
      addCell_count_self har hv]
  · rw [hc, getD_set_self (by rw [hl.2.1]; omega) cu default,
      addCell_count_self hac hv]
  · rw [hb, getD_set_self (by rw [hl.2.2]; exact blockOf_lt i) bu default,
      addCell_count_self hab hv]

/-- `getD` on a replicated list gives the replicated element or the
default. -/
lemma getD_replicate_or (n j : Nat) (u d : Subsection) :
    (List.replicate n u).getD j d = u ∨ (List.replicate n u).getD j d = d := by
  rw [List.getD_eq_getElem?_getD, List.getElem?_replicate]
  by_cases hj : j < n
  · simp [hj]
  · simp [hj]

/-- The initial state has 9 units in every family, all satisfying
`unitOK`. -/
lemma initState_famLen9_famOK : famLen9 initState ∧ famOK initState := by
  constructor
  · exact ⟨by simp [initState], by simp [initState], by simp [initState]⟩
  · intro j
    have h1 : unitOK ⟨[], [], allDigits⟩ :=
      ⟨List.nodup_nil, by decide, fun v hv => absurd hv (List.not_mem_nil v)⟩
    have h2 : unitOK (default : Subsection) :=
      ⟨List.nodup_nil, List.nodup_nil, fun v hv => absurd hv (List.not_mem_nil v)⟩
    refine ⟨?_, ?_, ?_⟩ <;>
      · show unitOK ((List.replicate 9 (⟨[], [], allDigits⟩ : Subsection)).getD j default)
        rcases getD_replicate_or 9 j ⟨[], [], allDigits⟩ default with heq | heq <;> rw [heq]
        exacts [h1, h2]

/-- Membership from an in-bounds indexed lookup. -/
lemma mem_of_getElem?_some {α : Type} {l : List α} {n : Nat} {a : α}
    (h : l[n]? = some a) : a ∈ l := by
  have hn : n < l.length := by
    by_contra hc
    rw [List.getElem?_eq_none (by omega)] at h
    exact absurd h (by simp)
  rw [List.getElem?_eq_getElem hn] at h
  exact (Option.some.inj h) ▸ List.getElem_mem hn

/-- The entry at position `i` of the registration list is the cell index
`i` paired with the board value there. -/
lemma boardEntries_getElem? (board : List (List Nat)) (i : Nat) (h : i < 81) :
    (boardEntries board)[i]? = some (i, boardValue board i) := by
  simp [boardEntries, boardValue, List.getElem?_range, h]

/-- Splitting the registration list at position `i1`. -/
lemma entries_split (board : List (List Nat)) (i1 : Nat) (h : i1 < 81) :
    boardEntries board =
      (boardEntries board).take i1 ++
        (i1, boardValue board i1) :: (boardEntries board).drop (i1 + 1) := by
  have hl : i1 < (boardEntries board).length := by simp [boardEntries]; omega
  have hget : (boardEntries board)[i1] = (i1, boardValue board i1) := by
    have h? := boardEntries_getElem? board i1 h
    rw [List.getElem?_eq_getElem hl] at h?
    exact Option.some.inj h?
  conv_lhs => rw [← List.take_append_drop i1 (boardEntries board),
    List.drop_eq_getElem_cons hl]
  rw [hget]

/-- Peeling one successful registration step. -/
lemma registerAll_cons_some {s s' : SudokuState} {e : Nat × Nat} {es : List (Nat × Nat)}
    (h : registerAll s (e :: es) = some s') :
    ∃ s1, registerCell s e.1 e.2 = some s1 ∧ registerAll s1 es = some s' := by
  simp only [registerAll] at h
  cases hstep : registerCell s e.1 e.2 with
  | none => rw [hstep] at h; exact absurd h (by simp)
  | some s1 => rw [hstep] at h; exact ⟨s1, rfl, h⟩

/-- Peeling a successful registration run at a concatenation. -/
lemma registerAll_append_some {l1 l2 : List (Nat × Nat)} {s s' : SudokuState}
    (h : registerAll s (l1 ++ l2) = some s') :
    ∃ s1, registerAll s l1 = some s1 ∧ registerAll s1 l2 = some s' := by
  rw [registerAll_append] at h
  cases h1 : registerAll s l1 with
  | none => rw [h1] at h; exact absurd h (by simp)
  | some s1 => rw [h1] at h; exact ⟨s1, rfl, h⟩

/-- Core of the duplicate-rejection argument, for `i1 < i2`: were the whole
registration to succeed, the duplicated digit would be counted twice in the
shared unit's `known_values`, which the preserved `unitOK` invariant
forbids. -/
lemma build_dup_aux (board : List (List Nat)) (i1 i2 v : Nat)
    (h12 : i1 < i2) (h2 : i2 < 81) (hv : v ≠ 0)
    (hv1 : boardValue board i1 = v) (hv2 : boardValue board i2 = v)
    (hJ : i1 / 9 = i2 / 9 ∨ i1 % 9 = i2 % 9 ∨ blockOf i1 = blockOf i2) :
    registerAll initState (boardEntries board) = none := by
  cases hreg : registerAll initState (boardEntries board) with
  | none => rfl
  | some sF =>
    exfalso
    have h1 : i1 < 81 := by omega
    have hsplit1 := entries_split board i1 h1
    rw [hv1] at hsplit1
    have hmem2 : (i2, v) ∈ (boardEntries board).drop (i1 + 1) := by
      apply mem_of_getElem?_some (n := i2 - (i1 + 1))
      rw [List.getElem?_drop]
      rw [show i1 + 1 + (i2 - (i1 + 1)) = i2 by omega]
      rw [boardEntries_getElem? board i2 h2, hv2]
    obtain ⟨l2, l3, hsplit2⟩ := List.append_of_mem hmem2
    rw [hsplit1, hsplit2] at hreg
    obtain ⟨sA, hA, hrest⟩ := registerAll_append_some hreg
    obtain ⟨sB, hB, hrest2⟩ := registerAll_cons_some hrest
    obtain ⟨sC, hC, hrest3⟩ := registerAll_append_some hrest2
    obtain ⟨sD, hD, hl3⟩ := registerAll_cons_some hrest3
    dsimp only at hB hD
    obtain ⟨hlen0, hOK0⟩ := initState_famLen9_famOK
    have LA : famLen9 sA := registerAll_famLen9 _ _ _ hA hlen0
    have LC : famLen9 sC :=
      registerAll_famLen9 _ _ _ hC (registerCell_famLen9 hB LA)
    have OKF : famOK sF :=
      registerAll_famOK _ _ _ hl3
        (registerCell_famOK hD
          (registerAll_famOK _ _ _ hC
            (registerCell_famOK hB (registerAll_famOK _ _ _ hA hOK0))))
    rcases hJ with hJ | hJ | hJ
    · have inc1 := (registerCell_count_inc hB hv LA h1).1
      have mono1 := (registerAll_count_le _ _ _ hC (i1 / 9) v).1
      have inc2 := (registerCell_count_inc hD hv LC h2).1
      have mono2 := (registerAll_count_le _ _ _ hl3 (i1 / 9) v).1
      rw [← hJ] at inc2
      have hle := List.nodup_iff_count_le_one.mp (OKF (i1 / 9)).1.1 v
      omega
    · have inc1 := (registerCell_count_inc hB hv LA h1).2.1
      have mono1 := (registerAll_count_le _ _ _ hC (i1 % 9) v).2.1
      have inc2 := (registerCell_count_inc hD hv LC h2).2.1
      have mono2 := (registerAll_count_le _ _ _ hl3 (i1 % 9) v).2.1
      rw [← hJ] at inc2
      have hle := List.nodup_iff_count_le_one.mp (OKF (i1 % 9)).2.1.1 v
      omega
    · have inc1 := (registerCell_count_inc hB hv LA h1).2.2
      have mono1 := (registerAll_count_le _ _ _ hC (blockOf i1) v).2.2
      have inc2 := (registerCell_count_inc hD hv LC h2).2.2
      have mono2 := (registerAll_count_le _ _ _ hl3 (blockOf i1) v).2.2
      rw [← hJ] at inc2
      have hle := List.nodup_iff_count_le_one.mp (OKF (blockOf i1)).2.2.1 v
      omega

/-- **C9** If a board fixes the same nonzero digit at two distinct cells of
one row, one column, or one block, then `Sudoku` construction fails (the
duplicate value is rejected during cell registration, when
`unknown_values.remove` raises), and no grid object is produced. -/
theorem construction_rejects_duplicates (board : List (List Nat)) (i1 i2 v : Nat)
    (h1 : i1 < 81) (h2 : i2 < 81) (hne : i1 ≠ i2) (hv : v ≠ 0)
    (hv1 : boardValue board i1 = v) (hv2 : boardValue board i2 = v)
    (hJ : i1 / 9 = i2 / 9 ∨ i1 % 9 = i2 % 9 ∨ blockOf i1 = blockOf i2) :
    buildSudoku board = none := by
  have key : registerAll initState (boardEntries board) = none := by
    rcases Nat.lt_or_ge i1 i2 with hlt | hge
    · exact build_dup_aux board i1 i2 v hlt h2 hv hv1 hv2 hJ
    · have hlt : i2 < i1 := by omega
      refine build_dup_aux board i2 i1 v hlt h1 hv hv2 hv1 ?_
      rcases hJ with h | h | h
      · exact Or.inl h.symm
      · exact Or.inr (Or.inl h.symm)
      · exact Or.inr (Or.inr h.symm)
  unfold buildSudoku
  split
  · exact key
  · rfl

/-- Witness for `construction_rejects_duplicates`: a board with the digit 5
fixed twice in row 1. -/
theorem construction_rejects_duplicates_witness :
    buildSudoku dupRowBoard = none :=
  construction_rejects_duplicates dupRowBoard 0 1 5 (by decide) (by decide)
    (by decide) (by decide) (by decide) (by decide) (Or.inl (by decide))
